import Mathlib

/-!
# WAR estruturado (`war.c`): board, attack gate, attack round, mission check, game loop

Shallow embedding of the game logic of `war.c`.

* The board `Territorio* mapa` is a `List Territorio`; `calloc` gives five zeroed
  records.  An index is a C `int`, here an `Int`.  Reading `mapa[i]` outside the
  list is undefined in C; the model reads a zeroed record there and drops a write.
* `char nome[50]` and `char cor[20]` are `String`s; `strcpy` is assignment and
  `strcmp(a, b) == 0` is equality.
* `int tropas` is an `Int`; in the data model a troop count is not negative, and on
  such counts the decrements of `simularAtaque` stay inside the range of `int`.  The
  sum that `verificarVitoria` accumulates in an `int` can leave that range: the
  model wraps it at 32 bits (`paraInt`), as compilers do.
* `rand()` reads the next element of a stream of naturals and advances it.
* What the functions print is kept as a list of `Evento`s, one constructor per
  message, together with an entry that records each call of `simularAtaque`.
* `scanf("%d", &x)` either assigns an integer to `x` or assigns nothing; the result
  of `scanf` is never tested in `war.c`, so in the second case `x` keeps the value it
  had.  The menu choice is an `Option Int`; the two numbers of `faseDeAtaque`, whose
  variables hold no value before, are plain `Int`s.
-/

namespace War

/-- Constant `#define NUM_TERRITORIOS 5`. -/
abbrev NUM_TERRITORIOS : Nat := 5

/-- Constant `#define NUM_MISSOES 2`. -/
abbrev NUM_MISSOES : Nat := 2

/-- Record `typedef struct { char nome[TAM_NOME]; char cor[TAM_COR]; int tropas; } Territorio;` -/
structure Territorio where
  nome : String
  cor : String
  tropas : Int
deriving DecidableEq, Repr

/-- A record as `calloc` leaves it: empty strings and no troops. -/
def Territorio.zerado : Territorio := ⟨"", "", 0⟩

/-- The read `mapa[i]`. -/
def ler (mapa : List Territorio) (i : Int) : Territorio :=
  if 0 ≤ i then mapa.getD i.toNat Territorio.zerado else Territorio.zerado

/-- The write `mapa[i] = t`. -/
def escrever (mapa : List Territorio) (i : Int) (t : Territorio) : List Territorio :=
  if 0 ≤ i then mapa.set i.toNat t else mapa

/-- The assignment `strcpy(mapa[i].nome, s)`. -/
def setNome (mapa : List Territorio) (i : Int) (s : String) : List Territorio :=
  escrever mapa i { ler mapa i with nome := s }

/-- The assignment `strcpy(mapa[i].cor, s)`. -/
def setCor (mapa : List Territorio) (i : Int) (s : String) : List Territorio :=
  escrever mapa i { ler mapa i with cor := s }

/-- The assignment `mapa[i].tropas = n`. -/
def setTropas (mapa : List Territorio) (i : Int) (n : Int) : List Territorio :=
  escrever mapa i { ler mapa i with tropas := n }

/-- State of the pseudo-random source: the stream `seq` of the values `rand()` will
return and the number `pos` of values already drawn. -/
structure Rand where
  seq : Nat → Nat
  pos : Nat

/-- The call `rand()`: the next value of the stream and the advanced state. -/
def rand (g : Rand) : Nat × Rand :=
  (g.seq g.pos, { g with pos := g.pos + 1 })

/-- A source whose next values are those of `l` (and 0 afterwards). -/
def Rand.deLista (l : List Nat) : Rand :=
  ⟨fun n => l.getD n 0, 0⟩

/-- Record of what the attack functions do on the terminal, one constructor per
message that tells an outcome (banners and prompts are not recorded), and of the
calls of `simularAtaque`. -/
inductive Evento where
  /-- Message "Território inválido! Escolha um número entre 1 e 5." -/
  | territorioInvalido
  /-- Message "Um território não pode atacar a si mesmo!" -/
  | autoAtaque
  /-- Message "O território atacante não possui tropas!" -/
  | atacanteSemTropas
  /-- Message "O território defensor não possui tropas!" -/
  | defensorSemTropas
  /-- Entry into `simularAtaque(mapa, atacante, defensor)`. -/
  | simularAtaque (atacante defensor : Int)
  /-- Message "%s (%s) ataca %s (%s)". -/
  | ataca (nomeAtacante corAtacante nomeDefensor corDefensor : String)
  /-- Messages "Dado do Atacante: %d" and "Dado do Defensor: %d". -/
  | dados (dadoAtacante dadoDefensor : Nat)
  /-- Message "O atacante venceu!" -/
  | atacanteVenceu
  /-- Message "%s foi CONQUISTADO!" -/
  | conquistado (nome : String)
  /-- Message "Uma tropa foi movida de %s para %s." -/
  | tropaMovida (origem destino : String)
  /-- Message "O defensor perdeu 1 tropa. Restam %d tropas." -/
  | defensorPerdeu (restam : Int)
  /-- Message "O defensor venceu!" and "O atacante não causou danos." -/
  | defensorVenceu
  /-- Table of the board printed by `exibirMapa`. -/
  | mapa (tabela : List Territorio)
  /-- Message "MISSÃO: Destruir completamente o exército Verde!" -/
  | missaoDestruirVerde
  /-- Message "MISSÃO: Conquistar 3 territórios!" -/
  | missaoConquistar
  /-- Message "MISSÃO: Desconhecida". -/
  | missaoDesconhecida
  /-- Menu printed by `exibirMenuPrincipal`. -/
  | menuPrincipal
  /-- Call `faseDeAtaque(mapa)` made by `main`. -/
  | faseDeAtaque
  /-- Message "PARABÉNS! MISSÃO CUMPRIDA!" -/
  | missaoCumprida
  /-- Message "Missão ainda não foi cumprida. Continue lutando!" -/
  | missaoNaoCumprida
  /-- Message "Obrigado por jogar! Até logo!" -/
  | ateLogo
  /-- Message "Opção inválida! Tente novamente." -/
  | opcaoInvalida
  /-- Message "Pressione ENTER para continuar..." -/
  | pausa
deriving DecidableEq, Repr

/-- What a call leaves behind: the board, the random source and the output. -/
structure Resultado where
  mapa : List Territorio
  rng : Rand
  saida : List Evento

/-- Source function `Territorio* alocarMapa(void)`, when `calloc` succeeds. -/
def alocarMapa : List Territorio :=
  List.replicate NUM_TERRITORIOS Territorio.zerado

/-- Source function `void inicializarTerritorios(Territorio* mapa)`. -/
def inicializarTerritorios (mapa : List Territorio) : List Territorio :=
  let mapa := setNome mapa 0 "América do Norte"
  let mapa := setCor mapa 0 "Verde"
  let mapa := setTropas mapa 0 3
  let mapa := setNome mapa 1 "Europa"
  let mapa := setCor mapa 1 "Azul"
  let mapa := setTropas mapa 1 2
  let mapa := setNome mapa 2 "Ásia"
  let mapa := setCor mapa 2 "Vermelho"
  let mapa := setTropas mapa 2 4
  let mapa := setNome mapa 3 "África"
  let mapa := setCor mapa 3 "Verde"
  let mapa := setTropas mapa 3 2
  let mapa := setNome mapa 4 "Oceania"
  let mapa := setCor mapa 4 "Amarelo"
  let mapa := setTropas mapa 4 1
  mapa

/-- The local `dadoAtacante = (rand() % 6) + 1`, first draw of `simularAtaque`. -/
def dadoAtacante (g : Rand) : Nat :=
  (rand g).1 % 6 + 1

/-- The local `dadoDefensor = (rand() % 6) + 1`, second draw of `simularAtaque`. -/
def dadoDefensor (g : Rand) : Nat :=
  (rand (rand g).2).1 % 6 + 1

/-- Source function `void simularAtaque(Territorio* mapa, int atacante, int defensor)`. -/
def simularAtaque (mapa : List Territorio) (atacante defensor : Int) (g : Rand) : Resultado :=
  let g2 := (rand (rand g).2).2
  let cabecalho :=
    [Evento.simularAtaque atacante defensor,
     Evento.ataca (ler mapa atacante).nome (ler mapa atacante).cor
       (ler mapa defensor).nome (ler mapa defensor).cor,
     Evento.dados (dadoAtacante g) (dadoDefensor g)]
  if dadoAtacante g ≥ dadoDefensor g then
    let mapa1 := setTropas mapa defensor ((ler mapa defensor).tropas - 1)
    if (ler mapa1 defensor).tropas = 0 then
      let mapa2 := setCor mapa1 defensor (ler mapa1 atacante).cor
      let mapa3 := setTropas mapa2 defensor 1
      let mapa4 := setTropas mapa3 atacante ((ler mapa3 atacante).tropas - 1)
      ⟨mapa4, g2, cabecalho ++ [Evento.atacanteVenceu,
        Evento.conquistado (ler mapa1 defensor).nome,
        Evento.tropaMovida (ler mapa4 atacante).nome (ler mapa4 defensor).nome]⟩
    else
      ⟨mapa1, g2, cabecalho ++ [Evento.atacanteVenceu,
        Evento.defensorPerdeu (ler mapa1 defensor).tropas]⟩
  else
    ⟨mapa, g2, cabecalho ++ [Evento.defensorVenceu]⟩

/-- Source function `void faseDeAtaque(Territorio* mapa)`; `atacante` and `defensor`
are the two integers read by `scanf`. -/
def faseDeAtaque (mapa : List Territorio) (atacante defensor : Int) (g : Rand) : Resultado :=
  if atacante < 1 ∨ atacante > NUM_TERRITORIOS ∨
      defensor < 1 ∨ defensor > NUM_TERRITORIOS then
    ⟨mapa, g, [Evento.territorioInvalido]⟩
  else if atacante = defensor then
    ⟨mapa, g, [Evento.autoAtaque]⟩
  else if (ler mapa (atacante - 1)).tropas = 0 then
    ⟨mapa, g, [Evento.atacanteSemTropas]⟩
  else if (ler mapa (defensor - 1)).tropas = 0 then
    ⟨mapa, g, [Evento.defensorSemTropas]⟩
  else
    simularAtaque mapa (atacante - 1) (defensor - 1) g

/-- Constant `INT_MAX` of the 32-bit `int`. -/
def INT_MAX : Int := 2147483647

/-- Constant `INT_MIN` of the 32-bit `int`. -/
def INT_MIN : Int := -2147483648

/-- The value a 32-bit `int` variable holds when the arithmetic result is `z`: `z`
itself when it lies in [`INT_MIN`, `INT_MAX`], its two's complement wrap otherwise. -/
def paraInt (z : Int) : Int :=
  (z + 2147483648) % 4294967296 - 2147483648

/-- Source function
`int verificarVitoria(const Territorio* mapa, int missaoId, const char* corJogador)`.
The accumulator `tropasVerdes` is an `int`: every `+=` goes through `paraInt`. -/
def verificarVitoria (mapa : List Territorio) (missaoId : Int) (corJogador : String) : Int :=
  if missaoId = 0 then
    let tropasVerdes : Int := (List.range NUM_TERRITORIOS).foldl
      (fun (acc : Int) (i : Nat) =>
        if (ler mapa i).cor = "Verde" then paraInt (acc + (ler mapa i).tropas) else acc) 0
    if tropasVerdes = 0 then 1 else 0
  else if missaoId = 1 then
    let territoriosConquistados : Int := (List.range NUM_TERRITORIOS).foldl
      (fun (acc : Int) (i : Nat) =>
        if (ler mapa i).cor = corJogador then acc + 1 else acc) 0
    if territoriosConquistados ≥ 3 then 1 else 0
  else
    0

/-- The local `char corJogador[TAM_COR] = "Azul"` of `main`. -/
def corJogador : String := "Azul"

/-- Source function `int sortearMissao(void)`: `rand() % NUM_MISSOES`. -/
def sortearMissao (g : Rand) : Int × Rand :=
  ((((rand g).1 % NUM_MISSOES : Nat) : Int), (rand g).2)

/-- Source function `void exibirMissao(int missaoId)`. -/
def exibirMissao (missaoId : Int) : List Evento :=
  if missaoId = 0 then [Evento.missaoDestruirVerde]
  else if missaoId = 1 then [Evento.missaoConquistar]
  else [Evento.missaoDesconhecida]

/-- The variables of `main` that live from one iteration of its loop to the next,
and the random source. -/
structure Jogo where
  mapa : List Territorio
  rng : Rand
  missaoId : Int
  vitoria : Int
  opcao : Int

/-- The setup of `main` up to the `do`: the board is allocated and filled in, the
mission is drawn, `vitoria = 0`; `opcao` is declared without a value and holds
whatever `opcao` is given here. -/
def iniciar (g : Rand) (opcao : Int) : Jogo :=
  { mapa := inicializarTerritorios alocarMapa
    rng := (sortearMissao g).2
    missaoId := (sortearMissao g).1
    vitoria := 0
    opcao := opcao }

/-- One pass through the body of the `do ... while` of `main`.  `entrada` is what
`scanf("%d", &opcao)` does (`some n` assigns `n`, `none` assigns nothing);
`atacante` and `defensor` are the numbers `faseDeAtaque` reads when it is called. -/
def iteracao (j : Jogo) (entrada : Option Int) (atacante defensor : Int) : Jogo × List Evento :=
  let tela := [Evento.mapa j.mapa] ++ exibirMissao j.missaoId ++ [Evento.menuPrincipal]
  let opcao := match entrada with
    | some n => n
    | none => j.opcao
  let caso : Jogo × List Evento :=
    if opcao = 1 then
      let r := faseDeAtaque j.mapa atacante defensor j.rng
      ({ j with mapa := r.mapa, rng := r.rng, opcao := opcao }, Evento.faseDeAtaque :: r.saida)
    else if opcao = 2 then
      let vitoria := verificarVitoria j.mapa j.missaoId corJogador
      if vitoria ≠ 0 then
        ({ j with vitoria := vitoria, opcao := opcao }, [Evento.missaoCumprida])
      else
        ({ j with vitoria := vitoria, opcao := opcao }, [Evento.missaoNaoCumprida])
    else if opcao = 0 then
      ({ j with opcao := opcao }, [Evento.ateLogo])
    else
      ({ j with opcao := opcao }, [Evento.opcaoInvalida])
  let pausa := if caso.1.opcao ≠ 0 ∧ caso.1.vitoria = 0 then [Evento.pausa] else []
  (caso.1, tela ++ caso.2 ++ pausa)

/-- The test `opcao != 0 && !vitoria` of the `do ... while` of `main`. -/
def continua (j : Jogo) : Bool :=
  decide (j.opcao ≠ 0 ∧ j.vitoria = 0)

/-- The states of the game loop in the specification. -/
inductive Estado where
  | Playing
  | Won
  | Exited
deriving DecidableEq, Repr

/-- The state of the specification that the variables of `main` stand for at the end
of an iteration: `Won` when `vitoria` is set, `Exited` when the choice was 0,
`Playing` otherwise. -/
def estado (j : Jogo) : Estado :=
  if j.vitoria ≠ 0 then Estado.Won
  else if j.opcao = 0 then Estado.Exited
  else Estado.Playing

/-- The values of the variables of `main` at the top of an iteration of its loop:
after the setup, and after every iteration that passes the loop test. -/
inductive NoLaco : Jogo → Prop where
  | entrada (g : Rand) (opcao : Int) : NoLaco (iniciar g opcao)
  | volta (j : Jogo) (entrada : Option Int) (atacante defensor : Int) (h : NoLaco j)
      (hc : continua (iteracao j entrada atacante defensor).1 = true) :
      NoLaco (iteracao j entrada atacante defensor).1

/-- One call of `faseDeAtaque` in a game: the two numbers typed and the state of the
random source at the call. -/
structure Jogada where
  atacante : Int
  defensor : Int
  g : Rand

/-- The board after the calls of `faseDeAtaque` of `js`, in order. -/
def jogar (mapa : List Territorio) : List Jogada → List Territorio
  | [] => mapa
  | j :: js => jogar (faseDeAtaque mapa j.atacante j.defensor j.g).mapa js

/-- Whether every call of `js` passes the gate and reaches `simularAtaque`. -/
def aceitas (mapa : List Territorio) : List Jogada → Bool
  | [] => true
  | j :: js =>
    decide (Evento.simularAtaque (j.atacante - 1) (j.defensor - 1) ∈
      (faseDeAtaque mapa j.atacante j.defensor j.g).saida) &&
    aceitas (faseDeAtaque mapa j.atacante j.defensor j.g).mapa js

/-- The number of calls of `js` in which the attacker wins the round. -/
def vitoriasAtacante (mapa : List Territorio) : List Jogada → Nat
  | [] => 0
  | j :: js =>
    (if Evento.atacanteVenceu ∈ (faseDeAtaque mapa j.atacante j.defensor j.g).saida
      then 1 else 0) +
    vitoriasAtacante (faseDeAtaque mapa j.atacante j.defensor j.g).mapa js

/-- The sum of the troop counts of a board. -/
def totalTropas (mapa : List Territorio) : Int :=
  (mapa.map (fun t => t.tropas)).sum

/-- Boards of a game: the one `inicializarTerritorios` fills in, and every board a
call of `faseDeAtaque` leaves, whatever the two numbers typed and the dice. -/
inductive Alcancavel : List Territorio → Prop where
  | inicio (mapa0 : List Territorio) (h : mapa0.length = NUM_TERRITORIOS) :
      Alcancavel (inicializarTerritorios mapa0)
  | ataque (mapa : List Territorio) (atacante defensor : Int) (g : Rand)
      (h : Alcancavel mapa) : Alcancavel (faseDeAtaque mapa atacante defensor g).mapa

/-- The starting board of the game, as the source spells it. -/
def mapaInicial : List Territorio :=
  [⟨"América do Norte", "Verde", 3⟩, ⟨"Europa", "Azul", 2⟩, ⟨"Ásia", "Vermelho", 4⟩,
   ⟨"África", "Verde", 2⟩, ⟨"Oceania", "Amarelo", 1⟩]

/-- A board on which "Verde" owns nothing. -/
def mapaSemVerde : List Territorio :=
  [⟨"América do Norte", "Azul", 1⟩, ⟨"Europa", "Azul", 2⟩, ⟨"Ásia", "Vermelho", 4⟩,
   ⟨"África", "Vermelho", 1⟩, ⟨"Oceania", "Amarelo", 1⟩]

/-- A board on which "Azul" owns exactly three territories. -/
def mapaTresAzuis : List Territorio :=
  [⟨"América do Norte", "Verde", 3⟩, ⟨"Europa", "Azul", 1⟩, ⟨"Ásia", "Azul", 1⟩,
   ⟨"África", "Verde", 2⟩, ⟨"Oceania", "Azul", 0⟩]

/-- A board on which the troops of "Verde" add up to 2^32, one more than an `int`
accumulator can count up to before it is back at 0. -/
def mapaTransbordo : List Territorio :=
  [⟨"América do Norte", "Verde", 2147483647⟩, ⟨"Europa", "Azul", 2⟩,
   ⟨"Ásia", "Verde", 2147483647⟩, ⟨"África", "Verde", 2⟩, ⟨"Oceania", "Amarelo", 1⟩]

/-- The starting board after "Europa" has lost one troop. -/
def mapaEuropaFraca : List Territorio :=
  [⟨"América do Norte", "Verde", 3⟩, ⟨"Europa", "Azul", 1⟩, ⟨"Ásia", "Vermelho", 4⟩,
   ⟨"África", "Verde", 2⟩, ⟨"Oceania", "Amarelo", 1⟩]

/-- The variables of `main` with mission 1 on a board where "Azul" owns three
territories. -/
def jogoTresAzuis : Jogo :=
  { mapa := mapaTresAzuis, rng := Rand.deLista [5, 0], missaoId := 1, vitoria := 0, opcao := 1 }

/-- The variables of `main` after a first iteration in which the player chose 1 and
territory 1 attacked territory 5 with rolls 6 and 1. -/
def jogoAposAtaque : Jogo :=
  (iteracao (iniciar (Rand.deLista [1, 5, 0, 5, 0]) 0) (some 1) 1 5).1

/-- Attacks of territory 2 ("Azul") with rolls 6 and 1 each: two on territory 4 and
three on territory 1. -/
def jogadasMissao0 : List Jogada :=
  [⟨2, 4, Rand.deLista [5, 0]⟩, ⟨2, 4, Rand.deLista [5, 0]⟩, ⟨2, 1, Rand.deLista [5, 0]⟩,
   ⟨2, 1, Rand.deLista [5, 0]⟩, ⟨2, 1, Rand.deLista [5, 0]⟩]

/-- Attacks of territory 2 ("Azul") with rolls 6 and 1 each: one on territory 5 and
two on territory 4. -/
def jogadasMissao1 : List Jogada :=
  [⟨2, 5, Rand.deLista [5, 0]⟩, ⟨2, 4, Rand.deLista [5, 0]⟩, ⟨2, 4, Rand.deLista [5, 0]⟩]

/-! ## Reading and writing the board -/

theorem ler_nat (mapa : List Territorio) (n : Nat) :
    ler mapa (n : Int) = mapa.getD n Territorio.zerado := by
  simp [ler]

theorem escrever_nat (mapa : List Territorio) (n : Nat) (t : Territorio) :
    escrever mapa (n : Int) t = mapa.set n t := by
  simp [escrever]

theorem length_escrever (mapa : List Territorio) (i : Int) (t : Territorio) :
    (escrever mapa i t).length = mapa.length := by
  unfold escrever
  split <;> simp

theorem ler_escrever_mesmo (mapa : List Territorio) (i : Int) (t : Territorio)
    (h0 : 0 ≤ i) (h1 : i < mapa.length) : ler (escrever mapa i t) i = t := by
  obtain ⟨n, rfl⟩ := Int.eq_ofNat_of_zero_le h0
  have hn : n < mapa.length := by exact_mod_cast h1
  simp [ler_nat, escrever_nat, List.getD_eq_getElem?_getD, List.getElem?_set, hn]

theorem ler_escrever_outro (mapa : List Territorio) (i j : Int) (t : Territorio)
    (h : i ≠ j) : ler (escrever mapa i t) j = ler mapa j := by
  unfold ler escrever
  by_cases hj : 0 ≤ j
  · by_cases hi : 0 ≤ i
    · have hne : i.toNat ≠ j.toNat := by omega
      simp [hi, hj, List.getD_eq_getElem?_getD, List.getElem?_set, hne]
    · simp [hi, hj]
  · simp [hj]

theorem length_setTropas (mapa : List Territorio) (i n : Int) :
    (setTropas mapa i n).length = mapa.length := by
  simp [setTropas, length_escrever]

theorem length_setCor (mapa : List Territorio) (i : Int) (s : String) :
    (setCor mapa i s).length = mapa.length := by
  simp [setCor, length_escrever]

theorem length_setNome (mapa : List Territorio) (i : Int) (s : String) :
    (setNome mapa i s).length = mapa.length := by
  simp [setNome, length_escrever]

theorem ler_setTropas_mesmo (mapa : List Territorio) (i n : Int)
    (h0 : 0 ≤ i) (h1 : i < mapa.length) :
    ler (setTropas mapa i n) i = { ler mapa i with tropas := n } := by
  simp [setTropas, ler_escrever_mesmo, h0, h1]

theorem ler_setTropas_outro (mapa : List Territorio) (i j n : Int) (h : i ≠ j) :
    ler (setTropas mapa i n) j = ler mapa j := by
  simp [setTropas, ler_escrever_outro, h]

theorem ler_setCor_mesmo (mapa : List Territorio) (i : Int) (s : String)
    (h0 : 0 ≤ i) (h1 : i < mapa.length) :
    ler (setCor mapa i s) i = { ler mapa i with cor := s } := by
  simp [setCor, ler_escrever_mesmo, h0, h1]

theorem ler_setCor_outro (mapa : List Territorio) (i j : Int) (s : String) (h : i ≠ j) :
    ler (setCor mapa i s) j = ler mapa j := by
  simp [setCor, ler_escrever_outro, h]

/-! ## The dice -/

theorem dadoAtacante_intervalo (g : Rand) : 1 ≤ dadoAtacante g ∧ dadoAtacante g ≤ 6 := by
  unfold dadoAtacante
  omega

theorem dadoDefensor_intervalo (g : Rand) : 1 ≤ dadoDefensor g ∧ dadoDefensor g ≤ 6 := by
  unfold dadoDefensor
  omega

/-- Every pair of rolls in [1,6] is the outcome of some state of the source. -/
theorem dados_realizaveis (a d : Nat) (ha : 1 ≤ a ∧ a ≤ 6) (hd : 1 ≤ d ∧ d ≤ 6) :
    dadoAtacante (Rand.deLista [a - 1, d - 1]) = a ∧
      dadoDefensor (Rand.deLista [a - 1, d - 1]) = d := by
  have h1 : (a - 1) % 6 = a - 1 := Nat.mod_eq_of_lt (by omega)
  have h2 : (d - 1) % 6 = d - 1 := Nat.mod_eq_of_lt (by omega)
  constructor
  · simp [dadoAtacante, rand, Rand.deLista, h1]
    omega
  · simp [dadoDefensor, rand, Rand.deLista, h2]
    omega

/-! ## One round of `simularAtaque` -/

/-- The board after a round the attacker wins and that empties the defender. -/
theorem simularAtaque_captura_mapa (mapa : List Territorio) (atacante defensor : Int) (g : Rand)
    (hd0 : 0 ≤ defensor) (hd1 : defensor < mapa.length)
    (hdados : dadoAtacante g ≥ dadoDefensor g) (h1 : (ler mapa defensor).tropas = 1) :
    (simularAtaque mapa atacante defensor g).mapa =
      setTropas (setTropas (setCor (setTropas mapa defensor 0) defensor
        (ler (setTropas mapa defensor 0) atacante).cor) defensor 1) atacante
        ((ler (setTropas (setCor (setTropas mapa defensor 0) defensor
          (ler (setTropas mapa defensor 0) atacante).cor) defensor 1) atacante).tropas - 1) := by
  simp [simularAtaque, hdados, h1, ler_setTropas_mesmo, hd0, hd1]

/-- The board after a round the attacker wins and that leaves the defender troops. -/
theorem simularAtaque_vitoria_mapa (mapa : List Territorio) (atacante defensor : Int) (g : Rand)
    (hd0 : 0 ≤ defensor) (hd1 : defensor < mapa.length)
    (hdados : dadoAtacante g ≥ dadoDefensor g) (h1 : (ler mapa defensor).tropas ≠ 1) :
    (simularAtaque mapa atacante defensor g).mapa =
      setTropas mapa defensor ((ler mapa defensor).tropas - 1) := by
  have h : ¬ (ler mapa defensor).tropas - 1 = 0 := by omega
  simp [simularAtaque, hdados, ler_setTropas_mesmo, hd0, hd1, h]

/-- The board after a round the defender wins. -/
theorem simularAtaque_derrota_mapa (mapa : List Territorio) (atacante defensor : Int) (g : Rand)
    (hdados : dadoAtacante g < dadoDefensor g) :
    (simularAtaque mapa atacante defensor g).mapa = mapa := by
  have h : ¬ dadoAtacante g ≥ dadoDefensor g := by omega
  simp [simularAtaque, h]

/-! ## Claims about `simularAtaque` -/

/-- C1. Capture: on any board, for distinct in-range indices and rolls with
`dadoAtacante ≥ dadoDefensor` (ties included), a defender holding exactly 1 troop
ends the round owned by the attacker's owner and with exactly 1 troop, and the
attacker ends it with one troop less and its owner unchanged. -/
theorem simularAtaque_captura (mapa : List Territorio) (atacante defensor : Int) (g : Rand)
    (ha0 : 0 ≤ atacante) (ha1 : atacante < mapa.length)
    (hd0 : 0 ≤ defensor) (hd1 : defensor < mapa.length)
    (hne : atacante ≠ defensor)
    (hdados : dadoAtacante g ≥ dadoDefensor g)
    (h1 : (ler mapa defensor).tropas = 1) :
    (ler (simularAtaque mapa atacante defensor g).mapa defensor).cor =
        (ler mapa atacante).cor ∧
      (ler (simularAtaque mapa atacante defensor g).mapa atacante).cor =
        (ler mapa atacante).cor ∧
      (ler (simularAtaque mapa atacante defensor g).mapa defensor).tropas = 1 ∧
      (ler (simularAtaque mapa atacante defensor g).mapa atacante).tropas =
        (ler mapa atacante).tropas - 1 := by
  rw [simularAtaque_captura_mapa mapa atacante defensor g hd0 hd1 hdados h1]
  have hne2 : defensor ≠ atacante := fun h => hne h.symm
  simp [ler_setTropas_mesmo, ler_setTropas_outro, ler_setCor_mesmo, ler_setCor_outro,
    length_setTropas, length_setCor, ha0, ha1, hd0, hd1, hne, hne2]

/-- Scenario C: index 0 (3 troops) attacks index 4 (1 troop) with rolls 6 and 1. -/
theorem simularAtaque_captura_witness :
    dadoAtacante (Rand.deLista [5, 0]) = 6 ∧ dadoDefensor (Rand.deLista [5, 0]) = 1 ∧
      (ler mapaInicial 0).tropas = 3 ∧ (ler mapaInicial 4).tropas = 1 ∧
      (ler (simularAtaque mapaInicial 0 4 (Rand.deLista [5, 0])).mapa 4).cor =
        (ler mapaInicial 0).cor ∧
      (ler (simularAtaque mapaInicial 0 4 (Rand.deLista [5, 0])).mapa 0).cor =
        (ler mapaInicial 0).cor ∧
      (ler (simularAtaque mapaInicial 0 4 (Rand.deLista [5, 0])).mapa 4).tropas = 1 ∧
      (ler (simularAtaque mapaInicial 0 4 (Rand.deLista [5, 0])).mapa 0).tropas = 3 - 1 :=
  ⟨by decide, by decide, by decide, by decide,
    simularAtaque_captura mapaInicial 0 4 (Rand.deLista [5, 0]) (by decide) (by decide)
      (by decide) (by decide) (by decide) (by decide) (by decide)⟩

/-- C2. Attacker win without capture, ties included: for distinct in-range indices
and rolls with `dadoAtacante ≥ dadoDefensor`, a defender holding at least 2 troops
loses exactly one and keeps its owner; the attacker's troops and owner do not
change. -/
theorem simularAtaque_vitoria_sem_captura (mapa : List Territorio) (atacante defensor : Int)
    (g : Rand)
    (_ha0 : 0 ≤ atacante) (_ha1 : atacante < mapa.length)
    (hd0 : 0 ≤ defensor) (hd1 : defensor < mapa.length)
    (hne : atacante ≠ defensor)
    (hdados : dadoAtacante g ≥ dadoDefensor g)
    (h2 : 2 ≤ (ler mapa defensor).tropas) :
    (ler (simularAtaque mapa atacante defensor g).mapa defensor).tropas =
        (ler mapa defensor).tropas - 1 ∧
      (ler (simularAtaque mapa atacante defensor g).mapa defensor).cor =
        (ler mapa defensor).cor ∧
      (ler (simularAtaque mapa atacante defensor g).mapa atacante).tropas =
        (ler mapa atacante).tropas ∧
      (ler (simularAtaque mapa atacante defensor g).mapa atacante).cor =
        (ler mapa atacante).cor := by
  rw [simularAtaque_vitoria_mapa mapa atacante defensor g hd0 hd1 hdados (by omega)]
  have hne2 : defensor ≠ atacante := fun h => hne h.symm
  simp [ler_setTropas_mesmo, ler_setTropas_outro, hd0, hd1, hne2]

/-- A tie (rolls 3 and 3): index 1 (2 troops) attacks index 2 (4 troops). -/
theorem simularAtaque_vitoria_sem_captura_witness :
    dadoAtacante (Rand.deLista [2, 2]) = 3 ∧ dadoDefensor (Rand.deLista [2, 2]) = 3 ∧
      (ler (simularAtaque mapaInicial 1 2 (Rand.deLista [2, 2])).mapa 2).tropas = 4 - 1 ∧
      (ler (simularAtaque mapaInicial 1 2 (Rand.deLista [2, 2])).mapa 2).cor = "Vermelho" ∧
      (ler (simularAtaque mapaInicial 1 2 (Rand.deLista [2, 2])).mapa 1).tropas = 2 ∧
      (ler (simularAtaque mapaInicial 1 2 (Rand.deLista [2, 2])).mapa 1).cor = "Azul" :=
  ⟨by decide, by decide,
    simularAtaque_vitoria_sem_captura mapaInicial 1 2 (Rand.deLista [2, 2]) (by decide)
      (by decide) (by decide) (by decide) (by decide) (by decide) (by decide)⟩

/-- C3. Defender win: for every board, every pair of indices and rolls with
`dadoAtacante < dadoDefensor`, the board after `simularAtaque` is the board before
it. -/
theorem simularAtaque_defensor_vence (mapa : List Territorio) (atacante defensor : Int)
    (g : Rand) (hdados : dadoAtacante g < dadoDefensor g) :
    (simularAtaque mapa atacante defensor g).mapa = mapa :=
  simularAtaque_derrota_mapa mapa atacante defensor g hdados

/-- Scenario D: rolls 2 and 5 leave the board as it was. -/
theorem simularAtaque_defensor_vence_witness :
    dadoAtacante (Rand.deLista [1, 4]) = 2 ∧ dadoDefensor (Rand.deLista [1, 4]) = 5 ∧
      (simularAtaque mapaInicial 0 4 (Rand.deLista [1, 4])).mapa = mapaInicial :=
  ⟨by decide, by decide,
    simularAtaque_defensor_vence mapaInicial 0 4 (Rand.deLista [1, 4]) (by decide)⟩

/-! ## Claims about `verificarVitoria` -/

theorem mapa_cinco (mapa : List Territorio) (h : mapa.length = NUM_TERRITORIOS) :
    ∃ a b c d e, mapa = [a, b, c, d, e] := by
  rcases mapa with _ | ⟨a, _ | ⟨b, _ | ⟨c, _ | ⟨d, _ | ⟨e, _ | ⟨f, l⟩⟩⟩⟩⟩⟩ <;>
    simp [NUM_TERRITORIOS] at h
  exact ⟨a, b, c, d, e, rfl⟩

theorem range_cinco : List.range NUM_TERRITORIOS = [0, 1, 2, 3, 4] := by
  decide

theorem ler_cinco (a b c d e : Territorio) :
    ler [a, b, c, d, e] 0 = a ∧ ler [a, b, c, d, e] 1 = b ∧ ler [a, b, c, d, e] 2 = c ∧
      ler [a, b, c, d, e] 3 = d ∧ ler [a, b, c, d, e] 4 = e :=
  ⟨rfl, rfl, rfl, rfl, rfl⟩

/-- A result inside the range of `int` is stored as it is. -/
theorem paraInt_cabe (z : Int) (h0 : INT_MIN ≤ z) (h1 : z ≤ INT_MAX) : paraInt z = z := by
  simp only [INT_MIN, INT_MAX] at h0 h1
  unfold paraInt
  omega

/-- Wrapping after every addition gives the wrap of the whole sum. -/
theorem paraInt_soma (a b : Int) : paraInt (paraInt a + b) = paraInt (a + b) := by
  unfold paraInt
  omega

/-- The `return (tropasVerdes == 0)` of mission 0 is non-zero exactly when the
accumulator is 0. -/
theorem retorno_naoZero (p : Prop) [Decidable p] : (if p then (1 : Int) else 0) ≠ 0 ↔ p := by
  split_ifs with hp <;> simp [hp]

/-- The troops of the territories of a board of 5 that "Verde" owns, added up. -/
theorem soma_verde_cinco (a b c d e : Territorio) :
    (([a, b, c, d, e].filter (fun t => t.cor = "Verde")).map (fun t => t.tropas)).sum =
      (if a.cor = "Verde" then a.tropas else 0) + (if b.cor = "Verde" then b.tropas else 0) +
        (if c.cor = "Verde" then c.tropas else 0) + (if d.cor = "Verde" then d.tropas else 0) +
        (if e.cor = "Verde" then e.tropas else 0) := by
  by_cases ha : a.cor = "Verde" <;> by_cases hb : b.cor = "Verde" <;>
    by_cases hc : c.cor = "Verde" <;> by_cases hd : d.cor = "Verde" <;>
    by_cases he : e.cor = "Verde" <;>
    simp [ha, hb, hc, hd, he, List.filter_cons] <;> omega

/-- C4. Mission 0: on a board of 5 territories on which the troops of the territories
owned by "Verde" add up to a value of the range of `int` (as on every board of a
game, where they add up to at most 12), for any player faction, `verificarVitoria`
answers non-zero exactly when that sum is 0; so it answers non-zero when no
territory is owned by "Verde". -/
theorem verificarVitoria_missao0 (mapa : List Territorio) (corJogador : String)
    (h : mapa.length = NUM_TERRITORIOS)
    (hs0 : INT_MIN ≤ ((mapa.filter (fun t => t.cor = "Verde")).map (fun t => t.tropas)).sum)
    (hs1 : ((mapa.filter (fun t => t.cor = "Verde")).map (fun t => t.tropas)).sum ≤ INT_MAX) :
    (verificarVitoria mapa 0 corJogador ≠ 0 ↔
        ((mapa.filter (fun t => t.cor = "Verde")).map (fun t => t.tropas)).sum = 0) ∧
      ((∀ t ∈ mapa, t.cor ≠ "Verde") → verificarVitoria mapa 0 corJogador ≠ 0) := by
  obtain ⟨a, b, c, d, e, rfl⟩ := mapa_cinco mapa h
  obtain ⟨h0, h1, h2, h3, h4⟩ := ler_cinco a b c d e
  simp only [INT_MIN, INT_MAX] at hs0 hs1
  constructor
  · rw [soma_verde_cinco] at hs0 hs1 ⊢
    simp only [verificarVitoria, range_cinco, List.foldl_cons, List.foldl_nil, if_true,
      Int.Nat.cast_ofNat_Int, Nat.cast_zero, Nat.cast_one, h0, h1, h2, h3, h4]
    rw [retorno_naoZero]
    by_cases ha : a.cor = "Verde" <;> by_cases hb : b.cor = "Verde" <;>
      by_cases hc : c.cor = "Verde" <;> by_cases hd : d.cor = "Verde" <;>
      by_cases he : e.cor = "Verde" <;>
      simp only [ha, hb, hc, hd, he, if_true, if_false, paraInt] at hs0 hs1 ⊢ <;>
      first
        | omega
        | simp
  · intro hv
    simp at hv
    simp [verificarVitoria, range_cinco, h0, h1, h2, h3, h4, hv]

/-- Scenario F: no territory of `mapaSemVerde` is owned by "Verde", and mission 0 is
complete there; on the starting board "Verde" holds 5 troops and it is not. -/
theorem verificarVitoria_missao0_witness :
    mapaSemVerde.length = NUM_TERRITORIOS ∧ (∀ t ∈ mapaSemVerde, t.cor ≠ "Verde") ∧
      verificarVitoria mapaSemVerde 0 "Azul" ≠ 0 ∧
      ((mapaInicial.filter (fun t => t.cor = "Verde")).map (fun t => t.tropas)).sum = 5 ∧
      ¬ verificarVitoria mapaInicial 0 "Azul" ≠ 0 :=
  ⟨by decide, by decide,
    (verificarVitoria_missao0 mapaSemVerde "Azul" (by decide) (by decide) (by decide)).2
      (by decide),
    by decide,
    fun hv => absurd
      ((verificarVitoria_missao0 mapaInicial "Azul" (by decide) (by decide) (by decide)).1.1 hv)
      (by decide)⟩

/-- Outside the range of `int` the accumulator of mission 0 wraps: on
`mapaTransbordo` the troops of "Verde" add up to 2^32 and `verificarVitoria` answers
1. -/
theorem verificarVitoria_soma_transborda :
    ((mapaTransbordo.filter (fun t => t.cor = "Verde")).map (fun t => t.tropas)).sum =
        4294967296 ∧
      verificarVitoria mapaTransbordo 0 "Azul" = 1 := by
  decide

/-- C5. Mission 1: on a board of 5 territories, for any player faction string,
`verificarVitoria` answers non-zero exactly when at least 3 territories are owned by
the player faction; the answer is the same on any two boards of 5 territories with
the same owners, whatever their troop counts. -/
theorem verificarVitoria_missao1 (mapa : List Territorio) (corJogador : String)
    (h : mapa.length = NUM_TERRITORIOS) :
    (verificarVitoria mapa 1 corJogador ≠ 0 ↔
        3 ≤ (mapa.filter (fun t => t.cor = corJogador)).length) ∧
      (∀ outro : List Territorio, outro.length = NUM_TERRITORIOS →
        outro.map (fun t => t.cor) = mapa.map (fun t => t.cor) →
        verificarVitoria outro 1 corJogador = verificarVitoria mapa 1 corJogador) := by
  obtain ⟨a, b, c, d, e, rfl⟩ := mapa_cinco mapa h
  obtain ⟨h0, h1, h2, h3, h4⟩ := ler_cinco a b c d e
  constructor
  · simp only [verificarVitoria, range_cinco, List.foldl_cons, List.foldl_nil, if_true,
      Int.Nat.cast_ofNat_Int, Nat.cast_zero, Nat.cast_one, h0, h1, h2, h3, h4]
    by_cases ha : a.cor = corJogador <;> by_cases hb : b.cor = corJogador <;>
      by_cases hc : c.cor = corJogador <;> by_cases hd : d.cor = corJogador <;>
      by_cases he : e.cor = corJogador <;>
      simp [ha, hb, hc, hd, he, List.filter_cons]
  · intro outro ho hcor
    obtain ⟨a2, b2, c2, d2, e2, rfl⟩ := mapa_cinco outro ho
    obtain ⟨k0, k1, k2, k3, k4⟩ := ler_cinco a2 b2 c2 d2 e2
    simp only [List.map_cons, List.map_nil, List.cons.injEq, and_true] at hcor
    obtain ⟨q0, q1, q2, q3, q4⟩ := hcor
    have hum : ¬ ((1 : Int) = 0) := by decide
    simp only [verificarVitoria, range_cinco, List.foldl_cons, List.foldl_nil, if_true,
      Int.Nat.cast_ofNat_Int, Nat.cast_zero, Nat.cast_one, h0, h1, h2, h3, h4,
      k0, k1, k2, k3, k4, q0, q1, q2, q3, q4, hum, if_false]

/-- Scenario B: "Azul" owns exactly three territories of `mapaTresAzuis` (one of
them without troops), and mission 1 is complete there. -/
theorem verificarVitoria_missao1_witness :
    mapaTresAzuis.length = NUM_TERRITORIOS ∧
      (mapaTresAzuis.filter (fun t => t.cor = "Azul")).length = 3 ∧
      verificarVitoria mapaTresAzuis 1 "Azul" ≠ 0 :=
  ⟨by decide, by decide,
    (verificarVitoria_missao1 mapaTresAzuis "Azul" (by decide)).1.2 (by decide)⟩

/-! ## Claims about the gate of `faseDeAtaque` -/

/-- What `faseDeAtaque` does once the four checks of its gate have passed. -/
theorem faseDeAtaque_aceito (mapa : List Territorio) (atacante defensor : Int) (g : Rand)
    (ha : 1 ≤ atacante ∧ atacante ≤ 5) (hd : 1 ≤ defensor ∧ defensor ≤ 5)
    (hne : atacante ≠ defensor)
    (hta : (ler mapa (atacante - 1)).tropas ≠ 0) (htd : (ler mapa (defensor - 1)).tropas ≠ 0) :
    faseDeAtaque mapa atacante defensor g =
      simularAtaque mapa (atacante - 1) (defensor - 1) g := by
  have h1 : ¬ (atacante < 1 ∨ atacante > (NUM_TERRITORIOS : Int) ∨
      defensor < 1 ∨ defensor > (NUM_TERRITORIOS : Int)) := by
    simp only [NUM_TERRITORIOS, Nat.cast_ofNat]
    omega
  unfold faseDeAtaque
  simp only [if_neg h1, if_neg hne, if_neg hta, if_neg htd]

/-- What `faseDeAtaque` does when one of the four checks of its gate fails. -/
theorem faseDeAtaque_recusado (mapa : List Territorio) (atacante defensor : Int) (g : Rand)
    (h : atacante < 1 ∨ atacante > 5 ∨ defensor < 1 ∨ defensor > 5 ∨ atacante = defensor ∨
      (ler mapa (atacante - 1)).tropas = 0 ∨ (ler mapa (defensor - 1)).tropas = 0) :
    (faseDeAtaque mapa atacante defensor g).mapa = mapa ∧
      (faseDeAtaque mapa atacante defensor g).rng = g ∧
      ((faseDeAtaque mapa atacante defensor g).saida = [Evento.territorioInvalido] ∨
        (faseDeAtaque mapa atacante defensor g).saida = [Evento.autoAtaque] ∨
        (faseDeAtaque mapa atacante defensor g).saida = [Evento.atacanteSemTropas] ∨
        (faseDeAtaque mapa atacante defensor g).saida = [Evento.defensorSemTropas]) := by
  unfold faseDeAtaque
  by_cases h1 : atacante < 1 ∨ atacante > (NUM_TERRITORIOS : Int) ∨
      defensor < 1 ∨ defensor > (NUM_TERRITORIOS : Int)
  · simp only [if_pos h1]
    simp
  · by_cases h2 : atacante = defensor
    · simp only [if_neg h1, if_pos h2]
      simp
    · by_cases h3 : (ler mapa (atacante - 1)).tropas = 0
      · simp only [if_neg h1, if_neg h2, if_pos h3]
        simp
      · by_cases h4 : (ler mapa (defensor - 1)).tropas = 0
        · simp only [if_neg h1, if_neg h2, if_neg h3, if_pos h4]
          simp
        · exfalso
          simp only [NUM_TERRITORIOS, Nat.cast_ofNat] at h1
          omega

/-- The gate passed whenever the output of `faseDeAtaque` records a call of
`simularAtaque`, and the call is the one on the two numbers minus 1. -/
theorem faseDeAtaque_chamada (mapa : List Territorio) (atacante defensor : Int) (g : Rand)
    (i j : Int)
    (h : Evento.simularAtaque i j ∈ (faseDeAtaque mapa atacante defensor g).saida) :
    (1 ≤ atacante ∧ atacante ≤ 5) ∧ (1 ≤ defensor ∧ defensor ≤ 5) ∧ atacante ≠ defensor ∧
      (ler mapa (atacante - 1)).tropas ≠ 0 ∧ (ler mapa (defensor - 1)).tropas ≠ 0 ∧
      i = atacante - 1 ∧ j = defensor - 1 := by
  by_cases hrec : atacante < 1 ∨ atacante > 5 ∨ defensor < 1 ∨ defensor > 5 ∨
      atacante = defensor ∨
      (ler mapa (atacante - 1)).tropas = 0 ∨ (ler mapa (defensor - 1)).tropas = 0
  · exfalso
    obtain ⟨-, -, hs | hs | hs | hs⟩ := faseDeAtaque_recusado mapa atacante defensor g hrec <;>
      simp [hs] at h
  · have ha : 1 ≤ atacante ∧ atacante ≤ 5 := by omega
    have hd : 1 ≤ defensor ∧ defensor ≤ 5 := by omega
    have hne : atacante ≠ defensor := fun hh => hrec (by simp [hh])
    have hta : (ler mapa (atacante - 1)).tropas ≠ 0 := fun hh => hrec (by simp [hh])
    have htd : (ler mapa (defensor - 1)).tropas ≠ 0 := fun hh => hrec (by simp [hh])
    rw [faseDeAtaque_aceito mapa atacante defensor g ha hd hne hta htd] at h
    refine ⟨ha, hd, hne, hta, htd, ?_⟩
    unfold simularAtaque at h
    by_cases hdados : dadoAtacante g ≥ dadoDefensor g
    · by_cases hz : (ler (setTropas mapa (defensor - 1)
          ((ler mapa (defensor - 1)).tropas - 1)) (defensor - 1)).tropas = 0
      · simp [hdados, hz] at h
        exact h
      · simp [hdados, hz] at h
        exact h
    · simp [hdados] at h
      exact h

/-- A read of a board without negative troop counts gives a count that is not
negative, inside the board or outside of it. -/
theorem ler_tropas_naoNeg (mapa : List Territorio) (h : ∀ t ∈ mapa, 0 ≤ t.tropas) (i : Int) :
    0 ≤ (ler mapa i).tropas := by
  unfold ler
  by_cases hi : 0 ≤ i
  · by_cases hn : i.toNat < mapa.length
    · simp only [if_pos hi, List.getD_eq_getElem?_getD, List.getElem?_eq_getElem hn,
        Option.getD_some]
      exact h _ (List.getElem_mem hn)
    · simp only [if_pos hi, List.getD_eq_getElem?_getD,
        List.getElem?_eq_none (Nat.le_of_not_lt hn), Option.getD_none]
      decide
  · simp only [if_neg hi]
    decide

/-- C6. Rejected attacks: when a check of the gate of `faseDeAtaque` fails (a number
outside [1,5], equal numbers, an attacker without troops or a defender without
troops), `simularAtaque` is not called, no dice are drawn or shown, and the board is
the one before. -/
theorem faseDeAtaque_rejeicao_sem_efeito (mapa : List Territorio) (atacante defensor : Int)
    (g : Rand)
    (h : atacante < 1 ∨ atacante > 5 ∨ defensor < 1 ∨ defensor > 5 ∨ atacante = defensor ∨
      (ler mapa (atacante - 1)).tropas = 0 ∨ (ler mapa (defensor - 1)).tropas = 0) :
    (∀ i j, Evento.simularAtaque i j ∉ (faseDeAtaque mapa atacante defensor g).saida) ∧
      (∀ x y, Evento.dados x y ∉ (faseDeAtaque mapa atacante defensor g).saida) ∧
      (faseDeAtaque mapa atacante defensor g).rng = g ∧
      (faseDeAtaque mapa atacante defensor g).mapa = mapa := by
  obtain ⟨hm, hg, hs⟩ := faseDeAtaque_recusado mapa atacante defensor g h
  refine ⟨?_, ?_, hg, hm⟩
  · intro i j
    rcases hs with hs | hs | hs | hs <;> simp [hs]
  · intro x y
    rcases hs with hs | hs | hs | hs <;> simp [hs]

/-- Scenario E: territory 2 attacking itself is rejected and nothing happens. -/
theorem faseDeAtaque_rejeicao_sem_efeito_witness :
    (∀ i j, Evento.simularAtaque i j ∉
        (faseDeAtaque mapaInicial 2 2 (Rand.deLista [5, 0])).saida) ∧
      (∀ x y, Evento.dados x y ∉ (faseDeAtaque mapaInicial 2 2 (Rand.deLista [5, 0])).saida) ∧
      (faseDeAtaque mapaInicial 2 2 (Rand.deLista [5, 0])).rng = Rand.deLista [5, 0] ∧
      (faseDeAtaque mapaInicial 2 2 (Rand.deLista [5, 0])).mapa = mapaInicial :=
  faseDeAtaque_rejeicao_sem_efeito mapaInicial 2 2 (Rand.deLista [5, 0]) (by decide)

/-- C7. On every board of the data model (no negative troop count), whenever
`faseDeAtaque` calls `simularAtaque`, both numbers lie in [1,5], the indices passed
are the numbers minus 1 and are distinct, and the troop counts of the attacker and
of the defender are above 0. -/
theorem faseDeAtaque_estabelece_precondicao (mapa : List Territorio) (atacante defensor : Int)
    (g : Rand) (i j : Int) (hpos : ∀ t ∈ mapa, 0 ≤ t.tropas)
    (h : Evento.simularAtaque i j ∈ (faseDeAtaque mapa atacante defensor g).saida) :
    (1 ≤ atacante ∧ atacante ≤ 5) ∧ (1 ≤ defensor ∧ defensor ≤ 5) ∧
      i = atacante - 1 ∧ j = defensor - 1 ∧ i ≠ j ∧
      (ler mapa i).tropas > 0 ∧ (ler mapa j).tropas > 0 := by
  obtain ⟨ha, hd, hne, hta, htd, rfl, rfl⟩ := faseDeAtaque_chamada mapa atacante defensor g i j h
  have h1 := ler_tropas_naoNeg mapa hpos (atacante - 1)
  have h2 := ler_tropas_naoNeg mapa hpos (defensor - 1)
  exact ⟨ha, hd, rfl, rfl, by omega, by omega, by omega⟩

/-- Territory 1 attacks territory 5 on the starting board: the call is
`simularAtaque(mapa, 0, 4)` and both troop counts are above 0. -/
theorem faseDeAtaque_estabelece_precondicao_witness :
    (∀ t ∈ mapaInicial, 0 ≤ t.tropas) ∧
      Evento.simularAtaque 0 4 ∈ (faseDeAtaque mapaInicial 1 5 (Rand.deLista [5, 0])).saida ∧
      (0 : Int) = 1 - 1 ∧ (4 : Int) = 5 - 1 ∧ (0 : Int) ≠ 4 ∧
      (ler mapaInicial 0).tropas > 0 ∧ (ler mapaInicial 4).tropas > 0 :=
  ⟨by decide, by decide,
    (faseDeAtaque_estabelece_precondicao mapaInicial 1 5 (Rand.deLista [5, 0]) 0 4
      (by decide) (by decide)).2.2⟩

/-! ## The starting board and the boards of a game -/

/-- On five records `inicializarTerritorios` overwrites every field of every record. -/
theorem inicializarTerritorios_cinco (a b c d e : Territorio) :
    inicializarTerritorios [a, b, c, d, e] = mapaInicial := by
  simp [inicializarTerritorios, setNome, setCor, setTropas, ler, escrever, mapaInicial]

theorem naoNeg_escrever (mapa : List Territorio) (i : Int) (t : Territorio)
    (h : ∀ x ∈ mapa, 0 ≤ x.tropas) (ht : 0 ≤ t.tropas) :
    ∀ x ∈ escrever mapa i t, 0 ≤ x.tropas := by
  intro x hx
  unfold escrever at hx
  by_cases hi : 0 ≤ i
  · rw [if_pos hi] at hx
    rcases List.mem_or_eq_of_mem_set hx with hx | hx
    · exact h x hx
    · rw [hx]
      exact ht
  · rw [if_neg hi] at hx
    exact h x hx

theorem naoNeg_setTropas (mapa : List Territorio) (i n : Int)
    (h : ∀ x ∈ mapa, 0 ≤ x.tropas) (hn : 0 ≤ n) :
    ∀ x ∈ setTropas mapa i n, 0 ≤ x.tropas :=
  naoNeg_escrever mapa i _ h hn

theorem naoNeg_setCor (mapa : List Territorio) (i : Int) (s : String)
    (h : ∀ x ∈ mapa, 0 ≤ x.tropas) :
    ∀ x ∈ setCor mapa i s, 0 ≤ x.tropas :=
  naoNeg_escrever mapa i _ h (ler_tropas_naoNeg mapa h i)

/-- A round of `simularAtaque` on in-range distinct indices whose two territories
hold troops keeps the board at its length and its troop counts from going negative. -/
theorem simularAtaque_preserva (mapa : List Territorio) (atacante defensor : Int) (g : Rand)
    (hd0 : 0 ≤ defensor) (hd1 : defensor < mapa.length) (hne : atacante ≠ defensor)
    (hta : (ler mapa atacante).tropas ≠ 0) (htd : (ler mapa defensor).tropas ≠ 0)
    (h : ∀ x ∈ mapa, 0 ≤ x.tropas) :
    (simularAtaque mapa atacante defensor g).mapa.length = mapa.length ∧
      ∀ x ∈ (simularAtaque mapa atacante defensor g).mapa, 0 ≤ x.tropas := by
  have ha := ler_tropas_naoNeg mapa h atacante
  have hd := ler_tropas_naoNeg mapa h defensor
  have hne2 : defensor ≠ atacante := fun hh => hne hh.symm
  by_cases hdados : dadoAtacante g ≥ dadoDefensor g
  · by_cases h1 : (ler mapa defensor).tropas = 1
    · rw [simularAtaque_captura_mapa mapa atacante defensor g hd0 hd1 hdados h1]
      refine ⟨by simp [length_setTropas, length_setCor], ?_⟩
      apply naoNeg_setTropas
      · apply naoNeg_setTropas
        · apply naoNeg_setCor
          exact naoNeg_setTropas mapa defensor 0 h (le_refl 0)
        · decide
      · rw [ler_setTropas_outro _ _ _ _ hne2, ler_setCor_outro _ _ _ _ hne2,
          ler_setTropas_outro _ _ _ _ hne2]
        omega
    · rw [simularAtaque_vitoria_mapa mapa atacante defensor g hd0 hd1 hdados h1]
      refine ⟨length_setTropas _ _ _, ?_⟩
      apply naoNeg_setTropas _ _ _ h
      omega
  · rw [simularAtaque_derrota_mapa mapa atacante defensor g (by omega)]
    exact ⟨rfl, h⟩

/-- A call of `faseDeAtaque` keeps a board of 5 territories without negative troop
counts such a board. -/
theorem faseDeAtaque_preserva (mapa : List Territorio) (atacante defensor : Int) (g : Rand)
    (hlen : mapa.length = NUM_TERRITORIOS) (h : ∀ x ∈ mapa, 0 ≤ x.tropas) :
    (faseDeAtaque mapa atacante defensor g).mapa.length = NUM_TERRITORIOS ∧
      ∀ x ∈ (faseDeAtaque mapa atacante defensor g).mapa, 0 ≤ x.tropas := by
  by_cases hrec : atacante < 1 ∨ atacante > 5 ∨ defensor < 1 ∨ defensor > 5 ∨
      atacante = defensor ∨
      (ler mapa (atacante - 1)).tropas = 0 ∨ (ler mapa (defensor - 1)).tropas = 0
  · rw [(faseDeAtaque_recusado mapa atacante defensor g hrec).1]
    exact ⟨hlen, h⟩
  · have ha : 1 ≤ atacante ∧ atacante ≤ 5 := by omega
    have hd : 1 ≤ defensor ∧ defensor ≤ 5 := by omega
    have hne : atacante ≠ defensor := fun hh => hrec (by simp [hh])
    have hta : (ler mapa (atacante - 1)).tropas ≠ 0 := fun hh => hrec (by simp [hh])
    have htd : (ler mapa (defensor - 1)).tropas ≠ 0 := fun hh => hrec (by simp [hh])
    rw [faseDeAtaque_aceito mapa atacante defensor g ha hd hne hta htd]
    have hd1 : defensor - 1 < (mapa.length : Int) := by
      rw [hlen]
      simp only [NUM_TERRITORIOS, Nat.cast_ofNat]
      omega
    have hp := simularAtaque_preserva mapa (atacante - 1) (defensor - 1) g (by omega) hd1
      (by omega) hta htd h
    exact ⟨hp.1.trans hlen, hp.2⟩

/-- C8. Every board of a game (reached from the board produced by
`inicializarTerritorios` through any number of calls of `faseDeAtaque`, whatever the
numbers chosen and the dice) has exactly 5 territories, each with a troop count that
is at least 0. -/
theorem alcancavel_cinco_naoNegativo (mapa : List Territorio) (h : Alcancavel mapa) :
    mapa.length = NUM_TERRITORIOS ∧ ∀ t ∈ mapa, 0 ≤ t.tropas := by
  induction h with
  | inicio mapa0 h0 =>
    obtain ⟨a, b, c, d, e, rfl⟩ := mapa_cinco mapa0 h0
    rw [inicializarTerritorios_cinco]
    decide
  | ataque mapa atacante defensor g _ ih =>
    exact faseDeAtaque_preserva mapa atacante defensor g ih.1 ih.2

/-- The board after territory 1 attacked territory 5 with rolls 6 and 1 at the start
of a game. -/
theorem alcancavel_cinco_naoNegativo_witness :
    Alcancavel (faseDeAtaque (inicializarTerritorios alocarMapa) 1 5
        (Rand.deLista [5, 0])).mapa ∧
      (faseDeAtaque (inicializarTerritorios alocarMapa) 1 5
        (Rand.deLista [5, 0])).mapa.length = NUM_TERRITORIOS ∧
      ∀ t ∈ (faseDeAtaque (inicializarTerritorios alocarMapa) 1 5 (Rand.deLista [5, 0])).mapa,
        0 ≤ t.tropas :=
  ⟨Alcancavel.ataque _ 1 5 _ (Alcancavel.inicio alocarMapa (by decide)),
    alcancavel_cinco_naoNegativo _
      (Alcancavel.ataque _ 1 5 _ (Alcancavel.inicio alocarMapa (by decide)))⟩

/-- C10. Whatever the 5 records of the board hold before, `inicializarTerritorios`
leaves exactly the 5 territories ("América do Norte", "Verde", 3), ("Europa", "Azul",
2), ("Ásia", "Vermelho", 4), ("África", "Verde", 2), ("Oceania", "Amarelo", 1), in
this order. -/
theorem inicializarTerritorios_fixo (mapa : List Territorio)
    (h : mapa.length = NUM_TERRITORIOS) :
    inicializarTerritorios mapa =
      [⟨"América do Norte", "Verde", 3⟩, ⟨"Europa", "Azul", 2⟩, ⟨"Ásia", "Vermelho", 4⟩,
       ⟨"África", "Verde", 2⟩, ⟨"Oceania", "Amarelo", 1⟩] := by
  obtain ⟨a, b, c, d, e, rfl⟩ := mapa_cinco mapa h
  exact inicializarTerritorios_cinco a b c d e

/-- The board `main` builds: `inicializarTerritorios` on the zeroed records of
`alocarMapa`; and the same board from records that held something else. -/
theorem inicializarTerritorios_fixo_witness :
    inicializarTerritorios alocarMapa =
        [⟨"América do Norte", "Verde", 3⟩, ⟨"Europa", "Azul", 2⟩, ⟨"Ásia", "Vermelho", 4⟩,
         ⟨"África", "Verde", 2⟩, ⟨"Oceania", "Amarelo", 1⟩] ∧
      inicializarTerritorios mapaTresAzuis = inicializarTerritorios alocarMapa :=
  ⟨inicializarTerritorios_fixo alocarMapa (by decide),
    (inicializarTerritorios_fixo mapaTresAzuis (by decide)).trans
      (inicializarTerritorios_fixo alocarMapa (by decide)).symm⟩

/-! ## Territories without troops after a round -/

/-- A round of `simularAtaque` does not touch the territories that are neither the
attacker nor the defender. -/
theorem simularAtaque_outros (mapa : List Territorio) (atacante defensor : Int) (g : Rand)
    (k : Int) (hka : k ≠ atacante) (hkd : k ≠ defensor) :
    ler (simularAtaque mapa atacante defensor g).mapa k = ler mapa k := by
  have h1 : atacante ≠ k := fun hh => hka hh.symm
  have h2 : defensor ≠ k := fun hh => hkd hh.symm
  unfold simularAtaque
  by_cases hdados : dadoAtacante g ≥ dadoDefensor g
  · by_cases hz : (ler (setTropas mapa defensor ((ler mapa defensor).tropas - 1))
        defensor).tropas = 0
    · simp [hdados, hz, ler_setTropas_outro, ler_setCor_outro, h1, h2]
    · simp [hdados, hz, ler_setTropas_outro, ler_setCor_outro, h1, h2]
  · simp [hdados]

/-- C9, as stated, fails: on the board the attack 3 -> 2 leaves at the start of a
game, territory 5 (1 troop) attacks territory 2 (1 troop), the gate lets it through,
and with rolls 6 and 1 the attacker's territory is left with 0 troops. -/
theorem simularAtaque_deixa_atacante_sem_tropas :
    (faseDeAtaque mapaInicial 3 2 (Rand.deLista [5, 0])).mapa = mapaEuropaFraca ∧
      (ler mapaEuropaFraca 4).tropas ≥ 1 ∧ (ler mapaEuropaFraca 1).tropas ≥ 1 ∧
      Evento.simularAtaque 4 1 ∈ (faseDeAtaque mapaEuropaFraca 5 2 (Rand.deLista [5, 0])).saida ∧
      (ler (simularAtaque mapaEuropaFraca 4 1 (Rand.deLista [5, 0])).mapa 4).tropas = 0 := by
  decide

/-- C9, amended. For an attack that passes the gate (distinct in-range indices,
attacker and defender with at least 1 troop each) and every dice outcome: the
defender does not have 0 troops once `simularAtaque` has finished, and a defender
whose troops reach 0 during the round ends it with 1 troop and the attacker's owner;
no territory other than the attacker's goes from a non-zero troop count to 0; the
attacker's territory ends with 0 troops exactly when it held 1 troop and captured the
defender. -/
theorem simularAtaque_zero_apenas_no_atacante (mapa : List Territorio)
    (atacante defensor : Int) (g : Rand)
    (ha0 : 0 ≤ atacante) (ha1 : atacante < mapa.length)
    (hd0 : 0 ≤ defensor) (hd1 : defensor < mapa.length)
    (hne : atacante ≠ defensor)
    (hta : 1 ≤ (ler mapa atacante).tropas) (htd : 1 ≤ (ler mapa defensor).tropas) :
    (ler (simularAtaque mapa atacante defensor g).mapa defensor).tropas ≠ 0 ∧
      (dadoAtacante g ≥ dadoDefensor g → (ler mapa defensor).tropas = 1 →
        (ler (simularAtaque mapa atacante defensor g).mapa defensor).tropas = 1 ∧
        (ler (simularAtaque mapa atacante defensor g).mapa defensor).cor =
          (ler mapa atacante).cor) ∧
      (∀ k : Int, k ≠ atacante → (ler mapa k).tropas ≠ 0 →
        (ler (simularAtaque mapa atacante defensor g).mapa k).tropas ≠ 0) ∧
      ((ler (simularAtaque mapa atacante defensor g).mapa atacante).tropas = 0 ↔
        (dadoAtacante g ≥ dadoDefensor g ∧ (ler mapa defensor).tropas = 1 ∧
          (ler mapa atacante).tropas = 1)) := by
  have hne2 : defensor ≠ atacante := fun h => hne h.symm
  have hoz : ∀ k : Int, k ≠ atacante → k ≠ defensor → (ler mapa k).tropas ≠ 0 →
      (ler (simularAtaque mapa atacante defensor g).mapa k).tropas ≠ 0 := by
    intro k hka hkd hk
    rw [simularAtaque_outros mapa atacante defensor g k hka hkd]
    exact hk
  by_cases hdados : dadoAtacante g ≥ dadoDefensor g
  · by_cases h1 : (ler mapa defensor).tropas = 1
    · have hcap := simularAtaque_captura_mapa mapa atacante defensor g hd0 hd1 hdados h1
      have hD : ler (simularAtaque mapa atacante defensor g).mapa defensor =
          { ler mapa defensor with cor := (ler mapa atacante).cor, tropas := 1 } := by
        rw [hcap]
        simp [ler_setTropas_mesmo, ler_setTropas_outro, ler_setCor_mesmo, ler_setCor_outro,
          length_setTropas, length_setCor, hd0, hd1, hne, hne2]
      have hA : ler (simularAtaque mapa atacante defensor g).mapa atacante =
          { ler mapa atacante with tropas := (ler mapa atacante).tropas - 1 } := by
        rw [hcap]
        simp [ler_setTropas_mesmo, ler_setTropas_outro, ler_setCor_mesmo, ler_setCor_outro,
          length_setTropas, length_setCor, ha0, ha1, hne, hne2]
      refine ⟨by simp [hD], fun _ _ => by simp [hD], ?_, ?_⟩
      · intro k hka hk
        by_cases hkd : k = defensor
        · rw [hkd, hD]
          simp
        · exact hoz k hka hkd hk
      · rw [hA]
        simp only [hdados, h1, true_and]
        omega
    · have hvit := simularAtaque_vitoria_mapa mapa atacante defensor g hd0 hd1 hdados h1
      have hD : ler (simularAtaque mapa atacante defensor g).mapa defensor =
          { ler mapa defensor with tropas := (ler mapa defensor).tropas - 1 } := by
        rw [hvit]
        simp [ler_setTropas_mesmo, hd0, hd1]
      have hA : ler (simularAtaque mapa atacante defensor g).mapa atacante =
          ler mapa atacante := by
        rw [hvit]
        simp [ler_setTropas_outro, hne2]
      have hDz : (ler (simularAtaque mapa atacante defensor g).mapa defensor).tropas ≠ 0 := by
        rw [hD]
        simp only
        omega
      refine ⟨hDz, fun _ hh => absurd hh h1, ?_, ?_⟩
      · intro k hka hk
        by_cases hkd : k = defensor
        · rw [hkd]
          exact hDz
        · exact hoz k hka hkd hk
      · rw [hA]
        constructor
        · intro hz
          omega
        · intro hz
          exact absurd hz.2.1 h1
  · have hder := simularAtaque_derrota_mapa mapa atacante defensor g (by omega)
    rw [hder]
    refine ⟨by omega, fun hh => absurd hh hdados, fun k _ hk => hk, ?_⟩
    constructor
    · intro hz
      omega
    · intro hz
      exact absurd hz.1 hdados

/-- Territory 5 (1 troop) attacks territory 2 (1 troop) with rolls 6 and 1: the
defender ends with 1 troop and the attacker's owner, the attacker with 0 troops. -/
theorem simularAtaque_zero_apenas_no_atacante_witness :
    (ler (simularAtaque mapaEuropaFraca 4 1 (Rand.deLista [5, 0])).mapa 1).tropas ≠ 0 ∧
      (ler (simularAtaque mapaEuropaFraca 4 1 (Rand.deLista [5, 0])).mapa 1).tropas = 1 ∧
      (ler (simularAtaque mapaEuropaFraca 4 1 (Rand.deLista [5, 0])).mapa 1).cor = "Amarelo" ∧
      (ler (simularAtaque mapaEuropaFraca 4 1 (Rand.deLista [5, 0])).mapa 0).tropas ≠ 0 ∧
      (ler (simularAtaque mapaEuropaFraca 4 1 (Rand.deLista [5, 0])).mapa 4).tropas = 0 :=
  have h := simularAtaque_zero_apenas_no_atacante mapaEuropaFraca 4 1 (Rand.deLista [5, 0])
    (by decide) (by decide) (by decide) (by decide) (by decide) (by decide) (by decide)
  ⟨h.1, (h.2.1 (by decide) (by decide)).1, (h.2.1 (by decide) (by decide)).2,
    h.2.2.1 0 (by decide) (by decide), h.2.2.2.2 (by decide)⟩

/-! ## The loop of `main` -/

/-- The variables after an iteration, by the value of `opcao` the `switch` sees. -/
theorem iteracao_jogo (j : Jogo) (entrada : Option Int) (atacante defensor : Int) :
    (iteracao j entrada atacante defensor).1 =
      if entrada.getD j.opcao = 1 then
        { j with mapa := (faseDeAtaque j.mapa atacante defensor j.rng).mapa,
                 rng := (faseDeAtaque j.mapa atacante defensor j.rng).rng,
                 opcao := 1 }
      else if entrada.getD j.opcao = 2 then
        { j with vitoria := verificarVitoria j.mapa j.missaoId "Azul", opcao := 2 }
      else
        { j with opcao := entrada.getD j.opcao } := by
  cases entrada with
  | none =>
    by_cases h1 : j.opcao = 1
    · simp [iteracao, h1]
    · by_cases h2 : j.opcao = 2
      · by_cases hv : verificarVitoria j.mapa j.missaoId "Azul" = 0 <;>
          simp [iteracao, h2, hv, corJogador]
      · by_cases h0 : j.opcao = 0 <;> simp [iteracao, h1, h2, h0]
  | some n =>
    by_cases h1 : n = 1
    · simp [iteracao, h1]
    · by_cases h2 : n = 2
      · by_cases hv : verificarVitoria j.mapa j.missaoId "Azul" = 0 <;>
          simp [iteracao, h2, hv, corJogador]
      · by_cases h0 : n = 0 <;> simp [iteracao, h1, h2, h0]

/-- C14. For every board, every player faction and every `missaoId` other than 0 and
1, negative ones included, `verificarVitoria` returns 0. -/
theorem verificarVitoria_missao_desconhecida (mapa : List Territorio) (corJogador : String)
    (missaoId : Int) (h0 : missaoId ≠ 0) (h1 : missaoId ≠ 1) :
    verificarVitoria mapa missaoId corJogador = 0 := by
  simp [verificarVitoria, h0, h1]

/-- Missions 2 and -1 are not complete on a board where missions 0 and 1 are. -/
theorem verificarVitoria_missao_desconhecida_witness :
    verificarVitoria mapaSemVerde 2 "Amarelo" = 0 ∧
      verificarVitoria mapaTresAzuis (-1) "Azul" = 0 :=
  ⟨verificarVitoria_missao_desconhecida mapaSemVerde "Amarelo" 2 (by decide) (by decide),
    verificarVitoria_missao_desconhecida mapaTresAzuis "Azul" (-1) (by decide) (by decide)⟩

/-- C11. One iteration of the loop of `main` from a state in which the game is on
(`vitoria` is 0), on any board and for any integer choice: the loop test fails
afterwards exactly when the choice is 0, or is 2 with `verificarVitoria(mapa,
missaoId, "Azul")` non-zero; the state is then `Exited`, respectively `Won`; a choice
of 1, a choice of 2 with the mission not complete, and any other integer leave it
`Playing`. -/
theorem iteracao_fim_do_laco (j : Jogo) (n atacante defensor : Int) (hv : j.vitoria = 0) :
    (continua (iteracao j (some n) atacante defensor).1 = false ↔
        n = 0 ∨ (n = 2 ∧ verificarVitoria j.mapa j.missaoId "Azul" ≠ 0)) ∧
      (n = 0 → estado (iteracao j (some n) atacante defensor).1 = Estado.Exited) ∧
      (n = 2 → verificarVitoria j.mapa j.missaoId "Azul" ≠ 0 →
        estado (iteracao j (some n) atacante defensor).1 = Estado.Won) ∧
      (n = 1 → estado (iteracao j (some n) atacante defensor).1 = Estado.Playing) ∧
      (n = 2 → verificarVitoria j.mapa j.missaoId "Azul" = 0 →
        estado (iteracao j (some n) atacante defensor).1 = Estado.Playing) ∧
      (n ≠ 0 → n ≠ 1 → n ≠ 2 →
        estado (iteracao j (some n) atacante defensor).1 = Estado.Playing) := by
  rw [iteracao_jogo]
  by_cases h1 : n = 1
  · simp [h1, continua, estado, hv]
  · by_cases h2 : n = 2
    · by_cases hm : verificarVitoria j.mapa j.missaoId "Azul" = 0 <;>
        simp [h2, hm, continua, estado]
    · by_cases h0 : n = 0 <;> simp [h1, h2, h0, continua, estado, hv]

/-- The choice 0 ends the game as `Exited`; the choice 2 on a board where "Azul" owns
three territories, with mission 1, ends it as `Won`. -/
theorem iteracao_fim_do_laco_witness :
    continua (iteracao (iniciar (Rand.deLista [1, 5, 0]) 7) (some 0) 1 5).1 = false ∧
      estado (iteracao (iniciar (Rand.deLista [1, 5, 0]) 7) (some 0) 1 5).1 = Estado.Exited ∧
      continua (iteracao jogoTresAzuis (some 2) 1 5).1 = false ∧
      estado (iteracao jogoTresAzuis (some 2) 1 5).1 = Estado.Won :=
  have h := iteracao_fim_do_laco (iniciar (Rand.deLista [1, 5, 0]) 7) 0 1 5 rfl
  have k := iteracao_fim_do_laco jogoTresAzuis 2 1 5 rfl
  ⟨h.1.2 (Or.inl rfl), h.2.1 rfl, k.1.2 (Or.inr ⟨rfl, by decide⟩), k.2.2.1 rfl (by decide)⟩

/-- An iteration does not change `missaoId`. -/
theorem iteracao_missaoId (j : Jogo) (entrada : Option Int) (atacante defensor : Int) :
    (iteracao j entrada atacante defensor).1.missaoId = j.missaoId := by
  rw [iteracao_jogo]
  split_ifs <;> rfl

/-- What `sortearMissao` returns is the value drawn modulo 2, so 0 or 1. -/
theorem sortearMissao_valor (g : Rand) :
    (sortearMissao g).1 = (((rand g).1 % 2 : Nat) : Int) ∧
      ((sortearMissao g).1 = 0 ∨ (sortearMissao g).1 = 1) := by
  refine ⟨rfl, ?_⟩
  have h : (sortearMissao g).1 = (((rand g).1 % 2 : Nat) : Int) := rfl
  rw [h]
  omega

/-- At the top of every iteration `vitoria` is 0 and `missaoId` is 0 or 1. -/
theorem noLaco_invariante (j : Jogo) (h : NoLaco j) :
    j.vitoria = 0 ∧ (j.missaoId = 0 ∨ j.missaoId = 1) := by
  induction h with
  | entrada g opcao => exact ⟨rfl, (sortearMissao_valor g).2⟩
  | volta j entrada atacante defensor _ hc ih =>
    refine ⟨?_, ?_⟩
    · simp only [continua, decide_eq_true_eq] at hc
      exact hc.2
    · rw [iteracao_missaoId]
      exact ih.2

/-- The shape of the output of `simularAtaque`. -/
theorem simularAtaque_saida (mapa : List Territorio) (atacante defensor : Int) (g : Rand) :
    ∃ n1 c1 n2 c2 resto, (simularAtaque mapa atacante defensor g).saida =
        [Evento.simularAtaque atacante defensor, Evento.ataca n1 c1 n2 c2,
          Evento.dados (dadoAtacante g) (dadoDefensor g)] ++ resto ∧
      (resto = [Evento.defensorVenceu] ∨
        (∃ k, resto = [Evento.atacanteVenceu, Evento.defensorPerdeu k]) ∨
        (∃ x y z, resto = [Evento.atacanteVenceu, Evento.conquistado x,
          Evento.tropaMovida y z])) := by
  unfold simularAtaque
  by_cases hdados : dadoAtacante g ≥ dadoDefensor g
  · by_cases hz : (ler (setTropas mapa defensor ((ler mapa defensor).tropas - 1))
        defensor).tropas = 0
    · simp only [if_pos hdados, if_pos hz]
      exact ⟨_, _, _, _, _, rfl, Or.inr (Or.inr ⟨_, _, _, rfl⟩)⟩
    · simp only [if_pos hdados, if_neg hz]
      exact ⟨_, _, _, _, _, rfl, Or.inr (Or.inl ⟨_, rfl⟩)⟩
  · simp only [if_neg hdados]
    exact ⟨_, _, _, _, _, rfl, Or.inl rfl⟩

/-- The output of `faseDeAtaque` is one of the four messages of its gate or the
output of `simularAtaque` on the two numbers minus 1. -/
theorem faseDeAtaque_saida (mapa : List Territorio) (atacante defensor : Int) (g : Rand) :
    (faseDeAtaque mapa atacante defensor g).saida = [Evento.territorioInvalido] ∨
      (faseDeAtaque mapa atacante defensor g).saida = [Evento.autoAtaque] ∨
      (faseDeAtaque mapa atacante defensor g).saida = [Evento.atacanteSemTropas] ∨
      (faseDeAtaque mapa atacante defensor g).saida = [Evento.defensorSemTropas] ∨
      (faseDeAtaque mapa atacante defensor g).saida =
        (simularAtaque mapa (atacante - 1) (defensor - 1) g).saida := by
  by_cases hrec : atacante < 1 ∨ atacante > 5 ∨ defensor < 1 ∨ defensor > 5 ∨
      atacante = defensor ∨
      (ler mapa (atacante - 1)).tropas = 0 ∨ (ler mapa (defensor - 1)).tropas = 0
  · obtain ⟨-, -, hs | hs | hs | hs⟩ := faseDeAtaque_recusado mapa atacante defensor g hrec <;>
      simp [hs]
  · have ha : 1 ≤ atacante ∧ atacante ≤ 5 := by omega
    have hd : 1 ≤ defensor ∧ defensor ≤ 5 := by omega
    have hne : atacante ≠ defensor := fun hh => hrec (by simp [hh])
    have hta : (ler mapa (atacante - 1)).tropas ≠ 0 := fun hh => hrec (by simp [hh])
    have htd : (ler mapa (defensor - 1)).tropas ≠ 0 := fun hh => hrec (by simp [hh])
    rw [faseDeAtaque_aceito mapa atacante defensor g ha hd hne hta htd]
    simp

/-- Nothing `faseDeAtaque` prints is a message of `main` or of `exibirMissao`. -/
theorem faseDeAtaque_saida_sem_main (mapa : List Territorio) (atacante defensor : Int)
    (g : Rand) :
    Evento.missaoDesconhecida ∉ (faseDeAtaque mapa atacante defensor g).saida ∧
      Evento.missaoCumprida ∉ (faseDeAtaque mapa atacante defensor g).saida ∧
      Evento.missaoNaoCumprida ∉ (faseDeAtaque mapa atacante defensor g).saida ∧
      Evento.opcaoInvalida ∉ (faseDeAtaque mapa atacante defensor g).saida ∧
      Evento.faseDeAtaque ∉ (faseDeAtaque mapa atacante defensor g).saida := by
  obtain ⟨n1, c1, n2, c2, resto, hs, hr⟩ :=
    simularAtaque_saida mapa (atacante - 1) (defensor - 1) g
  rcases faseDeAtaque_saida mapa atacante defensor g with h | h | h | h | h
  · simp [h]
  · simp [h]
  · simp [h]
  · simp [h]
  · rw [h, hs]
    rcases hr with hr | ⟨k, hr⟩ | ⟨x, y, z, hr⟩ <;> simp [hr]

/-- C13. Whatever value `r` the random source returns, `sortearMissao` returns
`r % 2`, which is 0 or 1; so at the top of every iteration of the loop of `main`
`missaoId` is 0 or 1, and neither the `default` of `verificarVitoria` nor that of
`exibirMissao` ("MISSÃO: Desconhecida") is reached. -/
theorem missaoId_zero_ou_um (g : Rand) (r : Nat) (hr : (rand g).1 = r)
    (j : Jogo) (hj : NoLaco j) (entrada : Option Int) (atacante defensor : Int) :
    (sortearMissao g).1 = ((r % 2 : Nat) : Int) ∧
      ((sortearMissao g).1 = 0 ∨ (sortearMissao g).1 = 1) ∧
      (j.missaoId = 0 ∨ j.missaoId = 1) ∧
      exibirMissao j.missaoId ≠ [Evento.missaoDesconhecida] ∧
      Evento.missaoDesconhecida ∉ (iteracao j entrada atacante defensor).2 := by
  obtain ⟨hs, h01⟩ := sortearMissao_valor g
  obtain ⟨-, hm⟩ := noLaco_invariante j hj
  rw [hr] at hs
  refine ⟨hs, h01, hm, ?_, ?_⟩
  · rcases hm with hm | hm <;> simp [hm, exibirMissao]
  · have hfa := (faseDeAtaque_saida_sem_main j.mapa atacante defensor j.rng).1
    unfold iteracao
    rcases hm with hm | hm <;> simp [hm, exibirMissao] <;> split_ifs <;> simp [hfa]

/-- The source returns 7: the mission drawn is 7 % 2 = 1 and the first iteration
shows a known mission. -/
theorem missaoId_zero_ou_um_witness :
    (sortearMissao (Rand.deLista [7])).1 = ((7 % 2 : Nat) : Int) ∧
      ((iniciar (Rand.deLista [7]) 0).missaoId = 0 ∨
        (iniciar (Rand.deLista [7]) 0).missaoId = 1) ∧
      Evento.missaoDesconhecida ∉ (iteracao (iniciar (Rand.deLista [7]) 0) (some 2) 1 5).2 :=
  have h := missaoId_zero_ou_um (Rand.deLista [7]) 7 rfl (iniciar (Rand.deLista [7]) 0)
    (NoLaco.entrada _ _) (some 2) 1 5
  ⟨h.1, h.2.2.1, h.2.2.2.2⟩

/-- C12, as stated, fails for a line that is not an integer: after an iteration in
which the player chose 1, `scanf` assigns nothing, `opcao` is still 1, and the
iteration calls `faseDeAtaque` again (here territory 3 attacks territory 2 and the
board changes) instead of taking the invalid-option branch. -/
theorem iteracao_entrada_nao_inteira_repete_ataque :
    NoLaco jogoAposAtaque ∧
      Evento.faseDeAtaque ∈ (iteracao jogoAposAtaque none 3 2).2 ∧
      Evento.opcaoInvalida ∉ (iteracao jogoAposAtaque none 3 2).2 ∧
      (iteracao jogoAposAtaque none 3 2).1.mapa ≠ jogoAposAtaque.mapa :=
  ⟨NoLaco.volta _ _ _ _ (NoLaco.entrada _ _) (by decide), by decide, by decide, by decide⟩

/-- C12, amended. For every board and every integer choice other than 0, 1 and 2, the
iteration takes the invalid-option branch: it prints the board, the mission, the
menu, "Opção inválida!" and the pause, attempts no attack and checks no mission,
leaves the board and the random source as they were, and the loop goes on
(`Playing`).  When the line is not an integer, `scanf` assigns nothing and the
iteration is the one of the value `opcao` already holds. -/
theorem iteracao_opcao_invalida (j : Jogo) (n atacante defensor : Int) (hv : j.vitoria = 0)
    (h0 : n ≠ 0) (h1 : n ≠ 1) (h2 : n ≠ 2) :
    (iteracao j (some n) atacante defensor).2 =
        [Evento.mapa j.mapa] ++ exibirMissao j.missaoId ++
          [Evento.menuPrincipal, Evento.opcaoInvalida, Evento.pausa] ∧
      Evento.faseDeAtaque ∉ (iteracao j (some n) atacante defensor).2 ∧
      (∀ a d, Evento.simularAtaque a d ∉ (iteracao j (some n) atacante defensor).2) ∧
      Evento.missaoCumprida ∉ (iteracao j (some n) atacante defensor).2 ∧
      Evento.missaoNaoCumprida ∉ (iteracao j (some n) atacante defensor).2 ∧
      (iteracao j (some n) atacante defensor).1.mapa = j.mapa ∧
      (iteracao j (some n) atacante defensor).1.rng = j.rng ∧
      continua (iteracao j (some n) atacante defensor).1 = true ∧
      estado (iteracao j (some n) atacante defensor).1 = Estado.Playing ∧
      iteracao j none atacante defensor = iteracao j (some j.opcao) atacante defensor := by
  have hs : (iteracao j (some n) atacante defensor).2 =
      [Evento.mapa j.mapa] ++ exibirMissao j.missaoId ++
        [Evento.menuPrincipal, Evento.opcaoInvalida, Evento.pausa] := by
    simp [iteracao, h0, h1, h2, hv]
  have hj : (iteracao j (some n) atacante defensor).1 = { j with opcao := n } := by
    rw [iteracao_jogo]
    simp [h1, h2]
  have hm : ∀ e ∈ (iteracao j (some n) atacante defensor).2,
      e = Evento.mapa j.mapa ∨ e = Evento.missaoDestruirVerde ∨ e = Evento.missaoConquistar ∨
        e = Evento.missaoDesconhecida ∨ e = Evento.menuPrincipal ∨ e = Evento.opcaoInvalida ∨
        e = Evento.pausa := by
    intro e he
    rw [hs] at he
    unfold exibirMissao at he
    split_ifs at he <;> simp at he <;> rcases he with he | he | he | he | he <;> simp [he]
  refine ⟨hs, ?_, ?_, ?_, ?_, ?_, ?_, ?_, ?_, rfl⟩
  · intro hmem
    rcases hm _ hmem with h | h | h | h | h | h | h <;> cases h
  · intro a d hmem
    rcases hm _ hmem with h | h | h | h | h | h | h <;> cases h
  · intro hmem
    rcases hm _ hmem with h | h | h | h | h | h | h <;> cases h
  · intro hmem
    rcases hm _ hmem with h | h | h | h | h | h | h <;> cases h
  · rw [hj]
  · rw [hj]
  · rw [hj]
    simp [continua, h0, hv]
  · rw [hj]
    simp [estado, h0, hv]

/-- The choice 7 at the start of a game: the invalid-option branch, the same board,
and the loop goes on. -/
theorem iteracao_opcao_invalida_witness :
    Evento.opcaoInvalida ∈ (iteracao (iniciar (Rand.deLista [1, 5, 0]) 0) (some 7) 1 5).2 ∧
      Evento.faseDeAtaque ∉ (iteracao (iniciar (Rand.deLista [1, 5, 0]) 0) (some 7) 1 5).2 ∧
      (iteracao (iniciar (Rand.deLista [1, 5, 0]) 0) (some 7) 1 5).1.mapa =
        (iniciar (Rand.deLista [1, 5, 0]) 0).mapa ∧
      continua (iteracao (iniciar (Rand.deLista [1, 5, 0]) 0) (some 7) 1 5).1 = true :=
  have h := iteracao_opcao_invalida (iniciar (Rand.deLista [1, 5, 0]) 0) 7 1 5 rfl
    (by decide) (by decide) (by decide)
  ⟨by rw [h.1]; simp, h.2.1, h.2.2.2.2.2.1, h.2.2.2.2.2.2.2.1⟩

/-! ## The attacker without troops, and what a round leaves alone -/

/-- A write outside the board is dropped. -/
theorem escrever_fora (mapa : List Territorio) (i : Int) (t : Territorio)
    (h : ¬ (0 ≤ i ∧ i < mapa.length)) : escrever mapa i t = mapa := by
  unfold escrever
  by_cases hi : 0 ≤ i
  · rw [if_pos hi]
    apply List.set_eq_of_length_le
    omega
  · rw [if_neg hi]

/-- A write that keeps the name of the record keeps every name of the board. -/
theorem ler_escrever_nome (mapa : List Territorio) (i : Int) (t : Territorio) (k : Int)
    (h : t.nome = (ler mapa i).nome) :
    (ler (escrever mapa i t) k).nome = (ler mapa k).nome := by
  by_cases hin : 0 ≤ i ∧ i < mapa.length
  · by_cases hk : i = k
    · rw [← hk, ler_escrever_mesmo mapa i t hin.1 hin.2, h]
    · rw [ler_escrever_outro mapa i k t hk]
  · rw [escrever_fora mapa i t hin]

theorem ler_setTropas_nome (mapa : List Territorio) (i n k : Int) :
    (ler (setTropas mapa i n) k).nome = (ler mapa k).nome :=
  ler_escrever_nome mapa i _ k rfl

theorem ler_setCor_nome (mapa : List Territorio) (i : Int) (s : String) (k : Int) :
    (ler (setCor mapa i s) k).nome = (ler mapa k).nome :=
  ler_escrever_nome mapa i _ k rfl

/-- A round of `simularAtaque` changes no name. -/
theorem simularAtaque_nome (mapa : List Territorio) (atacante defensor : Int) (g : Rand)
    (k : Int) :
    (ler (simularAtaque mapa atacante defensor g).mapa k).nome = (ler mapa k).nome := by
  unfold simularAtaque
  by_cases hdados : dadoAtacante g ≥ dadoDefensor g
  · by_cases hz : (ler (setTropas mapa defensor ((ler mapa defensor).tropas - 1))
        defensor).tropas = 0
    · simp [hdados, hz, ler_setTropas_nome, ler_setCor_nome]
    · simp [hdados, hz, ler_setTropas_nome]
  · simp [hdados]

/-- A round of `simularAtaque` on distinct indices changes of the attacker's record
at most the troop count, and only by the troop moved after a capture. -/
theorem simularAtaque_atacante (mapa : List Territorio) (atacante defensor : Int) (g : Rand)
    (ha0 : 0 ≤ atacante) (ha1 : atacante < mapa.length)
    (hd0 : 0 ≤ defensor) (hd1 : defensor < mapa.length) (hne : atacante ≠ defensor) :
    ler (simularAtaque mapa atacante defensor g).mapa atacante =
      if dadoAtacante g ≥ dadoDefensor g ∧ (ler mapa defensor).tropas = 1 then
        { ler mapa atacante with tropas := (ler mapa atacante).tropas - 1 }
      else ler mapa atacante := by
  have hne2 : defensor ≠ atacante := fun h => hne h.symm
  by_cases hdados : dadoAtacante g ≥ dadoDefensor g
  · by_cases h1 : (ler mapa defensor).tropas = 1
    · rw [simularAtaque_captura_mapa mapa atacante defensor g hd0 hd1 hdados h1]
      simp [ler_setTropas_mesmo, ler_setTropas_outro, ler_setCor_mesmo, ler_setCor_outro,
        length_setTropas, length_setCor, ha0, ha1, hne, hne2, hdados, h1]
    · rw [simularAtaque_vitoria_mapa mapa atacante defensor g hd0 hd1 hdados h1]
      simp [ler_setTropas_outro, hne2, h1]
  · rw [simularAtaque_derrota_mapa mapa atacante defensor g (by omega)]
    simp [hdados]

/-- `simularAtaque` records its call at the head of its output. -/
theorem simularAtaque_registra (mapa : List Territorio) (atacante defensor : Int) (g : Rand) :
    Evento.simularAtaque atacante defensor ∈ (simularAtaque mapa atacante defensor g).saida := by
  obtain ⟨n1, c1, n2, c2, resto, hs, -⟩ := simularAtaque_saida mapa atacante defensor g
  rw [hs]
  simp

/-- C15. There is an attack that passes the gate (territory 5 with 1 troop on
territory 2 with 1 troop, rolls 6 and 1) after which the attacker's territory has 0
troops and the owner it had; and every capture by an attacker that held exactly 1
troop leaves the attacker with 0 troops and its owner. -/
theorem atacante_esgotado :
    (Evento.simularAtaque 4 1 ∈ (faseDeAtaque mapaEuropaFraca 5 2 (Rand.deLista [5, 0])).saida ∧
        (ler mapaEuropaFraca 4).tropas = 1 ∧ (ler mapaEuropaFraca 1).tropas = 1 ∧
        (ler (faseDeAtaque mapaEuropaFraca 5 2 (Rand.deLista [5, 0])).mapa 4).tropas = 0 ∧
        (ler (faseDeAtaque mapaEuropaFraca 5 2 (Rand.deLista [5, 0])).mapa 4).cor =
          (ler mapaEuropaFraca 4).cor) ∧
      ∀ (mapa : List Territorio) (atacante defensor : Int) (g : Rand),
        0 ≤ atacante → atacante < mapa.length → 0 ≤ defensor → defensor < mapa.length →
        atacante ≠ defensor → dadoAtacante g ≥ dadoDefensor g →
        (ler mapa defensor).tropas = 1 → (ler mapa atacante).tropas = 1 →
        (ler (simularAtaque mapa atacante defensor g).mapa atacante).tropas = 0 ∧
          (ler (simularAtaque mapa atacante defensor g).mapa atacante).cor =
            (ler mapa atacante).cor := by
  refine ⟨by decide, ?_⟩
  intro mapa atacante defensor g ha0 ha1 hd0 hd1 hne hdados h1 hA
  rw [simularAtaque_atacante mapa atacante defensor g ha0 ha1 hd0 hd1 hne]
  simp [hdados, h1, hA]

/-- Territory 4 (1 troop, "Vermelho") captures territory 5 (1 troop) on
`mapaSemVerde` with a tie of 4 and 4. -/
theorem atacante_esgotado_witness :
    (ler (simularAtaque mapaSemVerde 3 4 (Rand.deLista [3, 3])).mapa 3).tropas = 0 ∧
      (ler (simularAtaque mapaSemVerde 3 4 (Rand.deLista [3, 3])).mapa 3).cor =
        (ler mapaSemVerde 3).cor :=
  atacante_esgotado.2 mapaSemVerde 3 4 (Rand.deLista [3, 3]) (by decide) (by decide)
    (by decide) (by decide) (by decide) (by decide) (by decide) (by decide)

/-- C16. For every board, distinct in-range indices and every dice outcome,
`simularAtaque` leaves every territory other than the attacker's and the defender's
as it was, leaves the name of every territory as it was, the attacker's and the
defender's included, and does not change the attacker's owner; the board keeps its
length. -/
theorem simularAtaque_moldura (mapa : List Territorio) (atacante defensor : Int) (g : Rand)
    (ha0 : 0 ≤ atacante) (ha1 : atacante < mapa.length)
    (hd0 : 0 ≤ defensor) (hd1 : defensor < mapa.length) (hne : atacante ≠ defensor) :
    (∀ k : Int, k ≠ atacante → k ≠ defensor →
        ler (simularAtaque mapa atacante defensor g).mapa k = ler mapa k) ∧
      (∀ k : Int, (ler (simularAtaque mapa atacante defensor g).mapa k).nome =
        (ler mapa k).nome) ∧
      (ler (simularAtaque mapa atacante defensor g).mapa atacante).cor =
        (ler mapa atacante).cor ∧
      (simularAtaque mapa atacante defensor g).mapa.length = mapa.length := by
  refine ⟨fun k hka hkd => simularAtaque_outros mapa atacante defensor g k hka hkd,
    fun k => simularAtaque_nome mapa atacante defensor g k, ?_, ?_⟩
  · rw [simularAtaque_atacante mapa atacante defensor g ha0 ha1 hd0 hd1 hne]
    split_ifs <;> rfl
  · by_cases hdados : dadoAtacante g ≥ dadoDefensor g
    · by_cases h1 : (ler mapa defensor).tropas = 1
      · rw [simularAtaque_captura_mapa mapa atacante defensor g hd0 hd1 hdados h1]
        simp [length_setTropas, length_setCor]
      · rw [simularAtaque_vitoria_mapa mapa atacante defensor g hd0 hd1 hdados h1]
        simp [length_setTropas]
    · rw [simularAtaque_derrota_mapa mapa atacante defensor g (by omega)]

/-- Scenario C again: after index 0 captured index 4, indices 1, 2 and 3 are as they
were, index 4 is still called "Oceania" and index 0 is still owned by "Verde". -/
theorem simularAtaque_moldura_witness :
    ler (simularAtaque mapaInicial 0 4 (Rand.deLista [5, 0])).mapa 2 = ler mapaInicial 2 ∧
      (ler (simularAtaque mapaInicial 0 4 (Rand.deLista [5, 0])).mapa 4).nome =
        (ler mapaInicial 4).nome ∧
      (ler (simularAtaque mapaInicial 0 4 (Rand.deLista [5, 0])).mapa 0).cor =
        (ler mapaInicial 0).cor ∧
      (simularAtaque mapaInicial 0 4 (Rand.deLista [5, 0])).mapa.length = mapaInicial.length :=
  have h := simularAtaque_moldura mapaInicial 0 4 (Rand.deLista [5, 0]) (by decide)
    (by decide) (by decide) (by decide) (by decide)
  ⟨h.1 2 (by decide) (by decide), h.2.1 4, h.2.2.1, h.2.2.2⟩

/-! ## The start of a game -/

/-- C17. On the board produced by `inicializarTerritorios`, with player faction
"Azul", `verificarVitoria` returns 0 for mission 1 ("Azul" owns exactly 1 territory)
and for mission 0 ("Verde" holds 3 + 2 = 5 troops); so an iteration of the loop of
`main` that checks the mission before any attack leaves the game `Playing`. -/
theorem mapa_novo_sem_vitoria (mapa0 : List Territorio) (h : mapa0.length = NUM_TERRITORIOS)
    (g : Rand) (opcao atacante defensor : Int) :
    verificarVitoria (inicializarTerritorios mapa0) 1 "Azul" = 0 ∧
      verificarVitoria (inicializarTerritorios mapa0) 0 "Azul" = 0 ∧
      ((inicializarTerritorios mapa0).filter (fun t => t.cor = "Azul")).length = 1 ∧
      (((inicializarTerritorios mapa0).filter (fun t => t.cor = "Verde")).map
        (fun t => t.tropas)).sum = 3 + 2 ∧
      continua (iteracao (iniciar g opcao) (some 2) atacante defensor).1 = true ∧
      estado (iteracao (iniciar g opcao) (some 2) atacante defensor).1 = Estado.Playing := by
  obtain ⟨a, b, c, d, e, rfl⟩ := mapa_cinco mapa0 h
  rw [inicializarTerritorios_cinco]
  have hv0 : verificarVitoria mapaInicial 0 "Azul" = 0 := by decide
  have hv1 : verificarVitoria mapaInicial 1 "Azul" = 0 := by decide
  have hi : (iniciar g opcao).mapa = mapaInicial :=
    inicializarTerritorios_cinco _ _ _ _ _
  have hvit : (iniciar g opcao).vitoria = 0 := rfl
  have hm : (iniciar g opcao).missaoId = 0 ∨ (iniciar g opcao).missaoId = 1 :=
    (sortearMissao_valor g).2
  have hver : verificarVitoria (iniciar g opcao).mapa (iniciar g opcao).missaoId "Azul" = 0 := by
    rw [hi]
    rcases hm with hm | hm <;> rw [hm]
    · exact hv0
    · exact hv1
  refine ⟨hv1, hv0, by decide, by decide, ?_, ?_⟩
  · rw [iteracao_jogo]
    simp [continua, hver]
  · rw [iteracao_jogo]
    simp [estado, hver]

/-- The game `main` starts with the source returning 1 (mission 1): the mission is
not complete and a check of it leaves the game `Playing`. -/
theorem mapa_novo_sem_vitoria_witness :
    verificarVitoria (inicializarTerritorios alocarMapa) 1 "Azul" = 0 ∧
      verificarVitoria (inicializarTerritorios alocarMapa) 0 "Azul" = 0 ∧
      estado (iteracao (iniciar (Rand.deLista [1]) 0) (some 2) 1 5).1 = Estado.Playing :=
  have h := mapa_novo_sem_vitoria alocarMapa (by decide) (Rand.deLista [1]) 0 1 5
  ⟨h.1, h.2.1, h.2.2.2.2.2⟩

/-! ## The total number of troops -/

theorem totalTropas_set (mapa : List Territorio) (n : Nat) (t : Territorio)
    (h : n < mapa.length) :
    totalTropas (mapa.set n t) =
      totalTropas mapa - (mapa.getD n Territorio.zerado).tropas + t.tropas := by
  induction mapa generalizing n with
  | nil => simp at h
  | cons x xs ih =>
    cases n with
    | zero =>
      simp only [totalTropas, List.set_cons_zero, List.map_cons, List.sum_cons,
        List.getD_cons_zero]
      omega
    | succ m =>
      have hm : m < xs.length := by simpa using h
      have := ih m hm
      simp only [totalTropas, List.set_cons_succ, List.map_cons, List.sum_cons,
        List.getD_cons_succ] at this ⊢
      omega

theorem totalTropas_escrever (mapa : List Territorio) (i : Int) (t : Territorio)
    (h0 : 0 ≤ i) (h1 : i < mapa.length) :
    totalTropas (escrever mapa i t) = totalTropas mapa - (ler mapa i).tropas + t.tropas := by
  obtain ⟨n, rfl⟩ := Int.eq_ofNat_of_zero_le h0
  have hn : n < mapa.length := by exact_mod_cast h1
  rw [escrever_nat, ler_nat, totalTropas_set mapa n t hn]

theorem totalTropas_setTropas (mapa : List Territorio) (i n : Int)
    (h0 : 0 ≤ i) (h1 : i < mapa.length) :
    totalTropas (setTropas mapa i n) = totalTropas mapa - (ler mapa i).tropas + n :=
  totalTropas_escrever mapa i _ h0 h1

theorem totalTropas_setCor (mapa : List Territorio) (i : Int) (s : String) :
    totalTropas (setCor mapa i s) = totalTropas mapa := by
  by_cases hin : 0 ≤ i ∧ i < mapa.length
  · unfold setCor
    rw [totalTropas_escrever mapa i _ hin.1 hin.2]
    simp
  · unfold setCor
    rw [escrever_fora mapa i _ hin]

/-- A round of `simularAtaque` on distinct in-range indices takes one troop off the
board when the attacker wins, capture or not, and none when the defender wins. -/
theorem simularAtaque_total (mapa : List Territorio) (atacante defensor : Int) (g : Rand)
    (ha0 : 0 ≤ atacante) (ha1 : atacante < mapa.length)
    (hd0 : 0 ≤ defensor) (hd1 : defensor < mapa.length) (hne : atacante ≠ defensor) :
    totalTropas (simularAtaque mapa atacante defensor g).mapa =
      if dadoAtacante g ≥ dadoDefensor g then totalTropas mapa - 1 else totalTropas mapa := by
  have hne2 : defensor ≠ atacante := fun h => hne h.symm
  by_cases hdados : dadoAtacante g ≥ dadoDefensor g
  · rw [if_pos hdados]
    by_cases h1 : (ler mapa defensor).tropas = 1
    · rw [simularAtaque_captura_mapa mapa atacante defensor g hd0 hd1 hdados h1]
      rw [totalTropas_setTropas _ _ _ ha0 (by simpa [length_setTropas, length_setCor] using ha1),
        totalTropas_setTropas _ _ _ hd0 (by simpa [length_setTropas, length_setCor] using hd1),
        totalTropas_setCor, totalTropas_setTropas _ _ _ hd0 hd1]
      simp [ler_setTropas_mesmo, ler_setTropas_outro, ler_setCor_mesmo, ler_setCor_outro,
        length_setTropas, length_setCor, hd0, hd1, hne2, h1]
    · rw [simularAtaque_vitoria_mapa mapa atacante defensor g hd0 hd1 hdados h1,
        totalTropas_setTropas _ _ _ hd0 hd1]
      omega
  · rw [if_neg hdados, simularAtaque_derrota_mapa mapa atacante defensor g (by omega)]

theorem totalTropas_naoNeg (mapa : List Territorio) (h : ∀ t ∈ mapa, 0 ≤ t.tropas) :
    0 ≤ totalTropas mapa := by
  unfold totalTropas
  apply List.sum_nonneg
  intro x hx
  obtain ⟨t, ht, rfl⟩ := List.mem_map.1 hx
  exact h t ht

/-- On a board without negative counts the troops of two distinct territories are
at most the total. -/
theorem totalTropas_dois (mapa : List Territorio) (h : ∀ t ∈ mapa, 0 ≤ t.tropas) (i j : Int)
    (hi0 : 0 ≤ i) (hi1 : i < mapa.length) (hj0 : 0 ≤ j) (hj1 : j < mapa.length)
    (hne : i ≠ j) :
    (ler mapa i).tropas + (ler mapa j).tropas ≤ totalTropas mapa := by
  have h1 := totalTropas_setTropas mapa i 0 hi0 hi1
  have h2 := totalTropas_setTropas (setTropas mapa i 0) j 0 hj0
    (by simpa [length_setTropas] using hj1)
  rw [ler_setTropas_outro mapa i j 0 hne] at h2
  have h3 := totalTropas_naoNeg _
    (naoNeg_setTropas _ j 0 (naoNeg_setTropas mapa i 0 h (le_refl 0)) (le_refl 0))
  omega

/-- The attacker wins a round of `simularAtaque` exactly when its roll is at least
the defender's. -/
theorem simularAtaque_atacanteVenceu (mapa : List Territorio) (atacante defensor : Int)
    (g : Rand) :
    Evento.atacanteVenceu ∈ (simularAtaque mapa atacante defensor g).saida ↔
      dadoAtacante g ≥ dadoDefensor g := by
  unfold simularAtaque
  by_cases hdados : dadoAtacante g ≥ dadoDefensor g
  · by_cases hz : (ler (setTropas mapa defensor ((ler mapa defensor).tropas - 1))
        defensor).tropas = 0
    · simp [hdados, hz]
    · simp [hdados, hz]
  · simp [hdados]

/-- One call of `faseDeAtaque` on a board of 5 territories without negative counts:
a round won by the attacker needs 2 troops on the board and takes one off, any
other call leaves the total as it was. -/
theorem faseDeAtaque_total (mapa : List Territorio) (atacante defensor : Int) (g : Rand)
    (hlen : mapa.length = NUM_TERRITORIOS) (h : ∀ x ∈ mapa, 0 ≤ x.tropas) :
    (Evento.atacanteVenceu ∈ (faseDeAtaque mapa atacante defensor g).saida →
        2 ≤ totalTropas mapa ∧
        totalTropas (faseDeAtaque mapa atacante defensor g).mapa = totalTropas mapa - 1) ∧
      (Evento.atacanteVenceu ∉ (faseDeAtaque mapa atacante defensor g).saida →
        totalTropas (faseDeAtaque mapa atacante defensor g).mapa = totalTropas mapa) := by
  by_cases hrec : atacante < 1 ∨ atacante > 5 ∨ defensor < 1 ∨ defensor > 5 ∨
      atacante = defensor ∨
      (ler mapa (atacante - 1)).tropas = 0 ∨ (ler mapa (defensor - 1)).tropas = 0
  · obtain ⟨hm, -, hs⟩ := faseDeAtaque_recusado mapa atacante defensor g hrec
    rw [hm]
    refine ⟨fun hw => ?_, fun _ => rfl⟩
    exfalso
    rcases hs with hs | hs | hs | hs <;> simp [hs] at hw
  · have ha : 1 ≤ atacante ∧ atacante ≤ 5 := by omega
    have hd : 1 ≤ defensor ∧ defensor ≤ 5 := by omega
    have hne : atacante ≠ defensor := fun hh => hrec (by simp [hh])
    have hta : (ler mapa (atacante - 1)).tropas ≠ 0 := fun hh => hrec (by simp [hh])
    have htd : (ler mapa (defensor - 1)).tropas ≠ 0 := fun hh => hrec (by simp [hh])
    have hl : (mapa.length : Int) = 5 := by
      rw [hlen]
      rfl
    have hA := ler_tropas_naoNeg mapa h (atacante - 1)
    have hD := ler_tropas_naoNeg mapa h (defensor - 1)
    have h2 := totalTropas_dois mapa h (atacante - 1) (defensor - 1) (by omega) (by omega)
      (by omega) (by omega) (by omega)
    have ht := simularAtaque_total mapa (atacante - 1) (defensor - 1) g (by omega) (by omega)
      (by omega) (by omega) (by omega)
    rw [faseDeAtaque_aceito mapa atacante defensor g ha hd hne hta htd,
      simularAtaque_atacanteVenceu]
    constructor
    · intro hw
      rw [ht, if_pos hw]
      exact ⟨by omega, rfl⟩
    · intro hw
      rw [ht, if_neg hw]

/-- In a game on a board of 5 territories without negative counts and with at least
one troop, the rounds won by attackers are fewer than the troops on the board. -/
theorem vitoriasAtacante_limite (js : List Jogada) (mapa : List Territorio)
    (hlen : mapa.length = NUM_TERRITORIOS) (h : ∀ x ∈ mapa, 0 ≤ x.tropas)
    (h1 : 1 ≤ totalTropas mapa) :
    (vitoriasAtacante mapa js : Int) + 1 ≤ totalTropas mapa := by
  induction js generalizing mapa with
  | nil => simpa [vitoriasAtacante] using h1
  | cons j js ih =>
    obtain ⟨hl2, hn2⟩ := faseDeAtaque_preserva mapa j.atacante j.defensor j.g hlen h
    obtain ⟨hw, hnw⟩ := faseDeAtaque_total mapa j.atacante j.defensor j.g hlen h
    unfold vitoriasAtacante
    by_cases hv : Evento.atacanteVenceu ∈ (faseDeAtaque mapa j.atacante j.defensor j.g).saida
    · obtain ⟨h2, ht⟩ := hw hv
      have := ih _ hl2 hn2 (by omega)
      rw [if_pos hv]
      push_cast
      omega
    · have ht := hnw hv
      have := ih _ hl2 hn2 (by omega)
      rw [if_neg hv]
      push_cast
      omega

/-- C18. For distinct in-range indices, as on every attack the gate lets through,
the sum of the troop counts after `simularAtaque` is the sum before minus 1 when
`dadoAtacante ≥ dadoDefensor`, capture or not, and the sum before when
`dadoAtacante < dadoDefensor`; the starting board holds 12 troops, and in a game
from it at most 11 rounds are won by attackers. -/
theorem total_de_tropas (mapa : List Territorio) (atacante defensor : Int) (g : Rand)
    (ha0 : 0 ≤ atacante) (ha1 : atacante < mapa.length)
    (hd0 : 0 ≤ defensor) (hd1 : defensor < mapa.length) (hne : atacante ≠ defensor)
    (_hta : 1 ≤ (ler mapa atacante).tropas) (_htd : 1 ≤ (ler mapa defensor).tropas) :
    (dadoAtacante g ≥ dadoDefensor g →
        totalTropas (simularAtaque mapa atacante defensor g).mapa = totalTropas mapa - 1) ∧
      (dadoAtacante g < dadoDefensor g →
        totalTropas (simularAtaque mapa atacante defensor g).mapa = totalTropas mapa) ∧
      totalTropas (inicializarTerritorios alocarMapa) = 12 ∧
      ∀ js : List Jogada, vitoriasAtacante (inicializarTerritorios alocarMapa) js ≤ 11 := by
  have ht := simularAtaque_total mapa atacante defensor g ha0 ha1 hd0 hd1 hne
  have h12 : totalTropas (inicializarTerritorios alocarMapa) = 12 := by decide
  refine ⟨fun hw => ?_, fun hl => ?_, h12, fun js => ?_⟩
  · rw [ht, if_pos hw]
  · rw [ht, if_neg (by omega)]
  · have hi : inicializarTerritorios alocarMapa = mapaInicial := by decide
    have hlim := vitoriasAtacante_limite js (inicializarTerritorios alocarMapa)
      (by rw [hi]; decide) (by rw [hi]; decide) (by rw [h12]; decide)
    rw [h12] at hlim
    omega

/-- Scenario C: the capture of index 4 by index 0 takes the board from 12 troops to
11; and the five rounds of `jogadasMissao0`, all won by the attacker, are within the
bound. -/
theorem total_de_tropas_witness :
    totalTropas mapaInicial = 12 ∧
      totalTropas (simularAtaque mapaInicial 0 4 (Rand.deLista [5, 0])).mapa =
        totalTropas mapaInicial - 1 ∧
      vitoriasAtacante (inicializarTerritorios alocarMapa) jogadasMissao0 = 5 ∧
      vitoriasAtacante (inicializarTerritorios alocarMapa) jogadasMissao0 ≤ 11 :=
  have h := total_de_tropas mapaInicial 0 4 (Rand.deLista [5, 0]) (by decide) (by decide)
    (by decide) (by decide) (by decide) (by decide) (by decide)
  ⟨by decide, h.1 (by decide), by decide, h.2.2.2 jogadasMissao0⟩

/-! ## The gate and the owners; games that complete a mission -/

/-- The gate of `faseDeAtaque` lets an attack through exactly when both numbers are
in [1,5], differ, and neither territory has a troop count of 0. -/
theorem faseDeAtaque_aceita_sse (mapa : List Territorio) (atacante defensor : Int) (g : Rand) :
    (∃ i j, Evento.simularAtaque i j ∈ (faseDeAtaque mapa atacante defensor g).saida) ↔
      (1 ≤ atacante ∧ atacante ≤ 5) ∧ (1 ≤ defensor ∧ defensor ≤ 5) ∧ atacante ≠ defensor ∧
        (ler mapa (atacante - 1)).tropas ≠ 0 ∧ (ler mapa (defensor - 1)).tropas ≠ 0 := by
  constructor
  · rintro ⟨i, j, h⟩
    obtain ⟨ha, hd, hne, hta, htd, -, -⟩ := faseDeAtaque_chamada mapa atacante defensor g i j h
    exact ⟨ha, hd, hne, hta, htd⟩
  · rintro ⟨ha, hd, hne, hta, htd⟩
    refine ⟨atacante - 1, defensor - 1, ?_⟩
    rw [faseDeAtaque_aceito mapa atacante defensor g ha hd hne hta htd]
    exact simularAtaque_registra mapa (atacante - 1) (defensor - 1) g

/-- The troop count read at an index depends on the troop counts of the board only. -/
theorem ler_tropas_map (mapa : List Territorio) (k : Int) :
    (ler mapa k).tropas =
      if 0 ≤ k then (mapa.map (fun t => t.tropas)).getD k.toNat 0 else 0 := by
  unfold ler
  by_cases hk : 0 ≤ k
  · simp only [if_pos hk, List.getD_eq_getElem?_getD, List.getElem?_map]
    cases mapa[k.toNat]? <;> rfl
  · simp only [if_neg hk]
    rfl

/-- C19. For every pair of chosen numbers and any two boards with the same troop
counts, whatever their owners (and whatever the dice), `faseDeAtaque` lets the attack
through on one exactly when it does on the other.  On the starting board the attack
of territory 1 ("Verde", not the player's "Azul") on territory 5 and the attack of
territory 1 on territory 4 (both "Verde") are let through and change the board. -/
theorem portao_ignora_donos (mapa1 mapa2 : List Territorio) (atacante defensor : Int)
    (g1 g2 : Rand)
    (h : mapa1.map (fun t => t.tropas) = mapa2.map (fun t => t.tropas)) :
    ((∃ i j, Evento.simularAtaque i j ∈ (faseDeAtaque mapa1 atacante defensor g1).saida) ↔
        (∃ i j, Evento.simularAtaque i j ∈ (faseDeAtaque mapa2 atacante defensor g2).saida)) ∧
      ((ler mapaInicial 0).cor ≠ "Azul" ∧
        Evento.simularAtaque 0 4 ∈ (faseDeAtaque mapaInicial 1 5 (Rand.deLista [5, 0])).saida ∧
        (faseDeAtaque mapaInicial 1 5 (Rand.deLista [5, 0])).mapa ≠ mapaInicial) ∧
      ((ler mapaInicial 0).cor = (ler mapaInicial 3).cor ∧
        Evento.simularAtaque 0 3 ∈ (faseDeAtaque mapaInicial 1 4 (Rand.deLista [5, 0])).saida ∧
        (faseDeAtaque mapaInicial 1 4 (Rand.deLista [5, 0])).mapa ≠ mapaInicial) := by
  refine ⟨?_, by decide, by decide⟩
  rw [faseDeAtaque_aceita_sse, faseDeAtaque_aceita_sse, ler_tropas_map mapa1,
    ler_tropas_map mapa1, ler_tropas_map mapa2, ler_tropas_map mapa2, h]

/-- The starting board and the same troop counts with every territory owned by
"Azul": territory 3 attacking territory 1 is let through on both. -/
theorem portao_ignora_donos_witness :
    mapaInicial.map (fun t => t.tropas) =
        (mapaInicial.map (fun t => { t with cor := "Azul" })).map (fun t => t.tropas) ∧
      ((∃ i j, Evento.simularAtaque i j ∈
          (faseDeAtaque mapaInicial 3 1 (Rand.deLista [5, 0])).saida) ↔
        (∃ i j, Evento.simularAtaque i j ∈
          (faseDeAtaque (mapaInicial.map (fun t => { t with cor := "Azul" })) 3 1
            (Rand.deLista [0, 5])).saida)) ∧
      Evento.simularAtaque 2 0 ∈ (faseDeAtaque mapaInicial 3 1 (Rand.deLista [5, 0])).saida :=
  ⟨by decide,
    (portao_ignora_donos mapaInicial (mapaInicial.map (fun t => { t with cor := "Azul" })) 3 1
      (Rand.deLista [5, 0]) (Rand.deLista [0, 5]) (by decide)).1,
    by decide⟩

/-- The boards `jogar` reaches from the starting board are boards of a game. -/
theorem alcancavel_jogar (js : List Jogada) (mapa : List Territorio) (h : Alcancavel mapa) :
    Alcancavel (jogar mapa js) := by
  induction js generalizing mapa with
  | nil => exact h
  | cons j js ih => exact ih _ (Alcancavel.ataque mapa j.atacante j.defensor j.g h)

/-- C20. For each of the missions 0 and 1 there is a finite sequence of attacks from
the board produced by `inicializarTerritorios`, each let through by the gate and
each with dice in [1,6], after which `verificarVitoria(mapa, missaoId, "Azul")` is
non-zero. -/
theorem missoes_alcancaveis (missaoId : Int) (h : missaoId = 0 ∨ missaoId = 1) :
    ∃ js : List Jogada,
      aceitas (inicializarTerritorios alocarMapa) js = true ∧
      (∀ j ∈ js, (1 ≤ dadoAtacante j.g ∧ dadoAtacante j.g ≤ 6) ∧
        (1 ≤ dadoDefensor j.g ∧ dadoDefensor j.g ≤ 6)) ∧
      Alcancavel (jogar (inicializarTerritorios alocarMapa) js) ∧
      verificarVitoria (jogar (inicializarTerritorios alocarMapa) js) missaoId "Azul" ≠ 0 := by
  have hd : ∀ js : List Jogada, ∀ j ∈ js, (1 ≤ dadoAtacante j.g ∧ dadoAtacante j.g ≤ 6) ∧
      (1 ≤ dadoDefensor j.g ∧ dadoDefensor j.g ≤ 6) :=
    fun _ j _ => ⟨dadoAtacante_intervalo j.g, dadoDefensor_intervalo j.g⟩
  have hal : ∀ js : List Jogada, Alcancavel (jogar (inicializarTerritorios alocarMapa) js) :=
    fun js => alcancavel_jogar js _ (Alcancavel.inicio alocarMapa (by decide))
  rcases h with h | h
  · exact ⟨jogadasMissao0, by decide, hd _, hal _, by rw [h]; decide⟩
  · exact ⟨jogadasMissao1, by decide, hd _, hal _, by rw [h]; decide⟩

/-- The two games: after `jogadasMissao0` no territory is owned by "Verde", after
`jogadasMissao1` three territories are owned by "Azul". -/
theorem missoes_alcancaveis_witness :
    (∃ js : List Jogada, aceitas (inicializarTerritorios alocarMapa) js = true ∧
        verificarVitoria (jogar (inicializarTerritorios alocarMapa) js) 0 "Azul" ≠ 0) ∧
      (∃ js : List Jogada, aceitas (inicializarTerritorios alocarMapa) js = true ∧
        verificarVitoria (jogar (inicializarTerritorios alocarMapa) js) 1 "Azul" ≠ 0) ∧
      verificarVitoria (jogar (inicializarTerritorios alocarMapa) jogadasMissao0) 0 "Azul" = 1 ∧
      verificarVitoria (jogar (inicializarTerritorios alocarMapa) jogadasMissao1) 1 "Azul" = 1 :=
  have h0 := missoes_alcancaveis 0 (Or.inl rfl)
  have h1 := missoes_alcancaveis 1 (Or.inr rfl)
  ⟨h0.elim fun js hjs => ⟨js, hjs.1, hjs.2.2.2⟩, h1.elim fun js hjs => ⟨js, hjs.1, hjs.2.2.2⟩,
    by decide, by decide⟩

/-! ## The range of `int` on the boards of a game -/

/-- On a board without negative counts the troops of the territories that satisfy a
test add up to a value between 0 and the total. -/
theorem soma_filtro_total (p : Territorio → Bool) (mapa : List Territorio)
    (h : ∀ t ∈ mapa, 0 ≤ t.tropas) :
    0 ≤ ((mapa.filter p).map (fun t => t.tropas)).sum ∧
      ((mapa.filter p).map (fun t => t.tropas)).sum ≤ totalTropas mapa := by
  induction mapa with
  | nil => simp [totalTropas]
  | cons x xs ih =>
    have hx : 0 ≤ x.tropas := h x (List.mem_cons_self x xs)
    have ih2 := ih (fun t ht => h t (List.mem_cons_of_mem x ht))
    unfold totalTropas at ih2 ⊢
    by_cases hp : p x = true
    · rw [List.filter_cons_of_pos hp]
      simp only [List.map_cons, List.sum_cons]
      omega
    · rw [List.filter_cons_of_neg hp]
      simp only [List.map_cons, List.sum_cons]
      omega

/-- A board of a game has 5 territories, no negative troop count and at most the 12
troops of the start. -/
theorem alcancavel_total (mapa : List Territorio) (h : Alcancavel mapa) :
    mapa.length = NUM_TERRITORIOS ∧ (∀ t ∈ mapa, 0 ≤ t.tropas) ∧ totalTropas mapa ≤ 12 := by
  induction h with
  | inicio mapa0 h0 =>
    obtain ⟨a, b, c, d, e, rfl⟩ := mapa_cinco mapa0 h0
    rw [inicializarTerritorios_cinco]
    decide
  | ataque mapa atacante defensor g _ ih =>
    obtain ⟨hlen, hpos, htot⟩ := ih
    obtain ⟨hl2, hn2⟩ := faseDeAtaque_preserva mapa atacante defensor g hlen hpos
    obtain ⟨hw, hnw⟩ := faseDeAtaque_total mapa atacante defensor g hlen hpos
    refine ⟨hl2, hn2, ?_⟩
    by_cases hv : Evento.atacanteVenceu ∈ (faseDeAtaque mapa atacante defensor g).saida
    · rw [(hw hv).2]
      omega
    · rw [hnw hv]
      exact htot

/-- On every board of a game the troops of "Verde" add up to a value between 0 and
12, inside the range of `int`: the accumulator of mission 0 does not overflow. -/
theorem alcancavel_soma_verde (mapa : List Territorio) (h : Alcancavel mapa) :
    INT_MIN ≤ ((mapa.filter (fun t => t.cor = "Verde")).map (fun t => t.tropas)).sum ∧
      ((mapa.filter (fun t => t.cor = "Verde")).map (fun t => t.tropas)).sum ≤ INT_MAX := by
  obtain ⟨-, hpos, htot⟩ := alcancavel_total mapa h
  obtain ⟨h0, h1⟩ := soma_filtro_total (fun t => decide (t.cor = "Verde")) mapa hpos
  simp only [INT_MIN, INT_MAX]
  constructor <;> omega

end War
